import Mathlib

set_option maxHeartbeats 1000000

/- Shallow embedding of the Dodo payments integration of this repository:
   `PaymentsService` (src/unnamed/part_000), `DodoWebhookController`
   (src/unnamed/part_001) and `DodoAPI`
   (src/ghost/core/core/server/services/dodo/DodoAPI.js).

   Modelling conventions:
   - Provider-side identifiers are opaque non-empty strings in the source; they
     are modelled as natural numbers drawn from a single fresh-id counter
     `Provider.nextId` (a non-empty string is always truthy in JavaScript, so a
     present id is modelled as `some _`).
   - The provider is deterministic: a lookup for an id that exists succeeds and
     a lookup for an absent id behaves as the HTTP 404 described in DodoAPI
     (`getCustomer` maps it to `deleted = true`; `getProduct`/`getPrice` throw,
     which the scanning loops in PaymentsService catch and skip).
   - The row stores (bookshelf models) are lists scanned in insertion order;
     `add` appends, `edit` updates every row matching the key.
   - `memberRepository.update` may fail (flag `St.repoError`); each webhook
     handler catches such failures exactly where the source has try/catch. -/

/-- Model of JavaScript `String.prototype.toLowerCase` (ASCII range, which is
all the source applies it to: currency codes). -/
def lowerChar (c : Char) : Char :=
  if 65 ≤ c.toNat ∧ c.toNat ≤ 90 then Char.ofNat (c.toNat + 32) else c

/-- Lowercasing of a string, character by character. -/
def lowerStr (s : String) : String := ⟨s.data.map lowerChar⟩

/-- JavaScript truthiness of an optional number (`0` and `null`/`undefined` are
falsy). -/
def jsTruthyNat : Option Nat → Bool
  | some n => n != 0
  | none => false

/-- JavaScript truthiness of an optional string (`""` and `null`/`undefined`
are falsy). -/
def jsTruthyStr : Option String → Bool
  | some s => s != ""
  | none => false

/-- A customer record held by the payment provider. -/
structure PCustomer where
  id : Nat
  email : String
  name : String
  deleted : Bool
deriving DecidableEq

/-- A product record held by the payment provider. -/
structure PProduct where
  id : Nat
  name : String
  active : Bool
deriving DecidableEq

/-- The `recurring` sub-object of a provider price. -/
structure PRecurring where
  interval : String
deriving DecidableEq

/-- A price record held by the payment provider. -/
structure PPrice where
  id : Nat
  currency : String
  unit_amount : Nat
  active : Bool
  nickname : String
  recurring : Option PRecurring
deriving DecidableEq

/-- A coupon record held by the payment provider. -/
structure PCoupon where
  id : Nat
  name : String
  discount_type : String
  discount_value : Option Nat
  currency : Option String
  duration : String
  duration_in_months : Option Nat
deriving DecidableEq

/-- The checkout-session payload DodoAPI.createCheckoutSession sends to the
provider (fields that the source sets conditionally are `Option`s; an absent
field is `none`). -/
structure SessionData where
  price_id : Nat
  success_url : String
  cancel_url : String
  metadata : List (String × String)
  mode : String
  customer_id : Option Nat
  customer_email : Option String
  trial_period_days : Option Nat
  coupon_id : Option Nat
deriving DecidableEq

/-- The provider state: the four artifact catalogs, the checkout sessions it
has received, and the fresh-id counter. -/
structure Provider where
  customers : List PCustomer
  products : List PProduct
  prices : List PPrice
  coupons : List PCoupon
  sessions : List SessionData
  nextId : Nat
deriving DecidableEq

/-- DodoAPI.getCustomer before its 404 handling: `makeRequest` either returns
the customer record or throws with the HTTP status code (404 for an id the
provider does not know). -/
def DodoAPI.getCustomerRaw (prov : Provider) (cid : Nat) : Except Nat PCustomer :=
  match prov.customers.find? (fun c => c.id == cid) with
  | some c => .ok c
  | none => .error 404

/-- DodoAPI.getCustomer: a 404 from the provider is turned into a record with
`deleted = true` instead of an exception (the id/email/name fields are absent
on that path; they are modelled by dummy values, the callers only read
`deleted` there). -/
def DodoAPI.getCustomer (prov : Provider) (cid : Nat) : PCustomer :=
  match DodoAPI.getCustomerRaw prov cid with
  | .ok c => { id := c.id, email := c.email, name := c.name, deleted := c.deleted }
  | .error _ => { id := 0, email := "", name := "", deleted := true }

/-- DodoAPI.createCustomer: creates a live provider customer with a fresh id. -/
def DodoAPI.createCustomer (prov : Provider) (email name : String) : PCustomer × Provider :=
  let c : PCustomer := { id := prov.nextId, email := email, name := name, deleted := false }
  (c, { prov with customers := prov.customers ++ [c], nextId := prov.nextId + 1 })

/-- DodoAPI.getProduct: a lookup for an absent product id fails (the thrown
error is caught and skipped by the scanning loops of PaymentsService). -/
def DodoAPI.getProduct (prov : Provider) (pid : Nat) : Except Unit PProduct :=
  match prov.products.find? (fun p => p.id == pid) with
  | some p => .ok p
  | none => .error ()

/-- DodoAPI.createProduct: a freshly created provider product is active. -/
def DodoAPI.createProduct (prov : Provider) (name : String) : PProduct × Provider :=
  let p : PProduct := { id := prov.nextId, name := name, active := true }
  (p, { prov with products := prov.products ++ [p], nextId := prov.nextId + 1 })

/-- DodoAPI.getPrice: a lookup for an absent price id fails. -/
def DodoAPI.getPrice (prov : Provider) (pid : Nat) : Except Unit PPrice :=
  match prov.prices.find? (fun p => p.id == pid) with
  | some p => .ok p
  | none => .error ()

/-- Argument record of DodoAPI.createPrice. -/
structure PriceCreate where
  product : Nat
  interval : Option String
  currency : String
  amount : Nat
  nickname : String
  type : String
  active : Bool

/-- DodoAPI.createPrice: lowercases the currency and builds the `recurring`
sub-object exactly when `type = "recurring"`. -/
def DodoAPI.createPrice (prov : Provider) (d : PriceCreate) : PPrice × Provider :=
  let p : PPrice :=
    { id := prov.nextId
      currency := lowerStr d.currency
      unit_amount := d.amount
      active := d.active
      nickname := d.nickname
      recurring := if d.type = "recurring" then some ⟨d.interval.getD ""⟩ else none }
  (p, { prov with prices := prov.prices ++ [p], nextId := prov.nextId + 1 })

/-- Argument record of DodoAPI.createCoupon (the `couponData` object built by
PaymentsService.createCouponForOffer; absent keys are `none`). -/
structure CouponCreate where
  name : String
  duration : String
  duration_in_months : Option Nat
  percent_off : Option Nat
  amount_off : Option Nat
  currency : Option String

/-- DodoAPI.createCoupon: classifies the discount by the truthiness of
`percent_off`, as the source does. -/
def DodoAPI.createCoupon (prov : Provider) (d : CouponCreate) : PCoupon × Provider :=
  let c : PCoupon :=
    { id := prov.nextId
      name := d.name
      discount_type := if jsTruthyNat d.percent_off then "percentage" else "fixed_amount"
      discount_value := if jsTruthyNat d.percent_off then d.percent_off else d.amount_off
      currency := d.currency
      duration := d.duration
      duration_in_months := d.duration_in_months }
  (c, { prov with coupons := prov.coupons ++ [c], nextId := prov.nextId + 1 })

/-- The `data` object PaymentsService.getPaymentLink passes to
DodoAPI.createCheckoutSession. -/
structure CheckoutData where
  metadata : List (String × String)
  successUrl : String
  cancelUrl : String
  trialDays : Option Nat
  coupon : Option Nat
  customerEmail : Option String := none

/-- Result of a checkout-session creation. -/
structure SessionResult where
  id : Nat
  url : String
deriving DecidableEq

/-- DodoAPI.createCheckoutSession: builds the session payload; the trial field
is included only when `data.trialDays` is truthy, the coupon field only when
`data.coupon` is truthy (a present provider id is always truthy). -/
def DodoAPI.createCheckoutSession (prov : Provider) (priceId : Nat)
    (customer : Option PCustomer) (d : CheckoutData) : SessionResult × Provider :=
  let sd : SessionData :=
    { price_id := priceId
      success_url := d.successUrl
      cancel_url := d.cancelUrl
      metadata := d.metadata
      mode := "subscription"
      customer_id := customer.map PCustomer.id
      customer_email :=
        if customer.isSome then none
        else if jsTruthyStr d.customerEmail then d.customerEmail else none
      trial_period_days := if jsTruthyNat d.trialDays then d.trialDays else none
      coupon_id := d.coupon }
  ({ id := prov.nextId, url := "checkout_" ++ toString prov.nextId },
   { prov with sessions := prov.sessions ++ [sd], nextId := prov.nextId + 1 })

/-- A row of the `DodoCustomer` cache table (member id, provider customer id). -/
structure DodoCustomerRow where
  member_id : String
  customer_id : Nat
  email : String
  name : String
deriving DecidableEq

/-- A row of the `DodoProduct` cache table (`product_id` is the tier id, or
`none` for the donation product). -/
structure DodoProductRow where
  product_id : Option String
  dodo_product_id : Nat
deriving DecidableEq

/-- A row of the `DodoPrice` cache table. -/
structure DodoPriceRow where
  id : Nat
  dodo_price_id : Nat
  dodo_product_id : Nat
  active : Bool
  nickname : String
  currency : String
  amount : Nat
  type : String
  interval : Option String
deriving DecidableEq

/-- A row of the `Offer` model restricted to the columns this service touches,
together with the fields of the offer DTO that `offersAPI.getOffer` returns for
the same offer (`discount_type` is the DTO's `type`). -/
structure OfferRow where
  id : String
  dodo_coupon_id : Option Nat
  discount_type : String
  name : String
  duration : String
  duration_in_months : Option Nat
  amount : Nat
  currency : Option String
deriving DecidableEq

/-- A member with its entitlement state, as held by the member repository
(external collaborator per the spec; modelled as a keyed store). -/
structure Member where
  id : String
  email : String
  name : String
  status : String
  subscribed : Bool
  tier_id : Option String
deriving DecidableEq

/-- Modelled from the spec: the `Tier` class (`../../../tiers/Tier`) is not
part of the sources; per §3 a tier has identity, name, currency, a per-cadence
price, a trial-day default and a paid/free kind. `tier.id.toHexString()` is
modelled as the id itself. -/
structure Tier where
  id : String
  name : String
  currency : String
  monthlyPrice : Nat
  yearlyPrice : Nat
  trialDays : Option Nat
  type : String
deriving DecidableEq

/-- Modelled from the spec: `tier.getPrice(cadence)` returns the per-cadence
price of the tier. -/
def Tier.getPrice (t : Tier) (cadence : String) : Nat :=
  if cadence = "month" then t.monthlyPrice else t.yearlyPrice

/-- The full system state: provider, cache tables, offers, members, tiers, the
fresh primary-key counter for DodoPrice rows, and the failure flag of the
member repository. -/
structure St where
  provider : Provider
  customers : List DodoCustomerRow
  products : List DodoProductRow
  prices : List DodoPriceRow
  priceSeq : Nat
  offers : List OfferRow
  members : List Member
  tiers : List Tier
  repoError : Bool
deriving DecidableEq

/-- The DodoCustomer rows of one member, in table order. -/
def PaymentsService.customerRowsFor (s : St) (mid : String) : List DodoCustomerRow :=
  s.customers.filter (fun r => r.member_id == mid)

/-- The scanning loop of PaymentsService.getCustomerForMember: return the first
provider customer that is not flagged deleted; skip dead candidates. -/
def PaymentsService.customerScan (prov : Provider) : List DodoCustomerRow → Option PCustomer
  | [] => none
  | r :: rs =>
    let c := DodoAPI.getCustomer prov r.customer_id
    if c.deleted then PaymentsService.customerScan prov rs else some c

/-- PaymentsService.createCustomerForMember: create a provider customer from
the member's email/name and persist a DodoCustomer row. -/
def PaymentsService.createCustomerForMember (m : Member) (s : St) : PCustomer × St :=
  match DodoAPI.createCustomer s.provider m.email m.name with
  | (c, prov) =>
    (c, { s with
          provider := prov
          customers := s.customers ++
            [{ member_id := m.id, customer_id := c.id, email := c.email, name := c.name }] })

/-- PaymentsService.getCustomerForMember: scan the cached rows, return the
first live provider customer, otherwise create one. -/
def PaymentsService.getCustomerForMember (m : Member) (s : St) : PCustomer × St :=
  match PaymentsService.customerScan s.provider (PaymentsService.customerRowsFor s m.id) with
  | some c => (c, s)
  | none => PaymentsService.createCustomerForMember m s

/-- The DodoProduct rows of one tier, in table order. -/
def PaymentsService.productRowsFor (s : St) (tierId : String) : List DodoProductRow :=
  s.products.filter (fun r => r.product_id == some tierId)

/-- The scanning loop of PaymentsService.getProductForTier: return the first
provider product reported active; skip failed lookups and inactive products. -/
def PaymentsService.productScan (prov : Provider) : List DodoProductRow → Option Nat
  | [] => none
  | r :: rs =>
    match DodoAPI.getProduct prov r.dodo_product_id with
    | .ok p => if p.active then some p.id else PaymentsService.productScan prov rs
    | .error _ => PaymentsService.productScan prov rs

/-- PaymentsService.createProductForTier. -/
def PaymentsService.createProductForTier (tier : Tier) (s : St) : Nat × St :=
  match DodoAPI.createProduct s.provider tier.name with
  | (p, prov) =>
    (p.id, { s with
             provider := prov
             products := s.products ++ [{ product_id := some tier.id, dodo_product_id := p.id }] })

/-- PaymentsService.getProductForTier. -/
def PaymentsService.getProductForTier (tier : Tier) (s : St) : Nat × St :=
  match PaymentsService.productScan s.provider (PaymentsService.productRowsFor s tier.id) with
  | some pid => (pid, s)
  | none => PaymentsService.createProductForTier tier s

/-- The local filter of PaymentsService.getPriceForTierCadence on DodoPrice
rows (`where` clause on product, currency, interval, amount, active, type). -/
def priceRowMatches (pid : Nat) (currency : String) (cadence : String) (amount : Nat)
    (r : DodoPriceRow) : Prop :=
  r.dodo_product_id = pid ∧ r.currency = currency ∧ r.interval = some cadence ∧
    r.amount = amount ∧ r.active = true ∧ r.type = "recurring"

instance (pid : Nat) (currency : String) (cadence : String) (amount : Nat) (r : DodoPriceRow) :
    Decidable (priceRowMatches pid currency cadence amount r) := by
  unfold priceRowMatches; exact inferInstance

/-- The provider-side verification condition of the scan in
PaymentsService.getPriceForTierCadence: the provider price is active and its
currency (lowercased), amount and interval all agree with the tier's. -/
def providerPriceMatches (currency : String) (amount : Nat) (cadence : String)
    (p : PPrice) : Prop :=
  p.active = true ∧ lowerStr p.currency = currency ∧ p.unit_amount = amount ∧
    p.recurring.map PRecurring.interval = some cadence

instance (currency : String) (amount : Nat) (cadence : String) (p : PPrice) :
    Decidable (providerPriceMatches currency amount cadence p) := by
  unfold providerPriceMatches; exact inferInstance

/-- `DodoPriceModel.edit {active := b} {id := rid}`: update the active flag of
every DodoPrice row whose primary key is `rid`. -/
def editActive (rows : List DodoPriceRow) (rid : Nat) (b : Bool) : List DodoPriceRow :=
  rows.map (fun q => if q.id = rid then { q with active := b } else q)

/-- The scanning loop of PaymentsService.getPriceForTierCadence over the
pre-fetched candidate rows, threading the whole DodoPrice table: a verified
candidate is returned; on a mismatch the row's `active` flag is set to the
provider price's `active` value; a failed provider lookup is skipped. -/
def PaymentsService.priceScan (prov : Provider) (currency : String) (amount : Nat)
    (cadence : String) :
    List DodoPriceRow → List DodoPriceRow → Option Nat × List DodoPriceRow
  | [], all => (none, all)
  | r :: rs, all =>
    match DodoAPI.getPrice prov r.dodo_price_id with
    | .error _ => PaymentsService.priceScan prov currency amount cadence rs all
    | .ok p =>
      if providerPriceMatches currency amount cadence p then (some p.id, all)
      else PaymentsService.priceScan prov currency amount cadence rs (editActive all r.id p.active)

/-- PaymentsService.createPriceForTierCadence: resolve the product again,
create the provider price, persist a DodoPrice row. -/
def PaymentsService.createPriceForTierCadence (tier : Tier) (cadence : String) (s : St) :
    Nat × St :=
  match PaymentsService.getProductForTier tier s with
  | (productId, s1) =>
    match DodoAPI.createPrice s1.provider
        { product := productId
          interval := some cadence
          currency := tier.currency
          amount := tier.getPrice cadence
          nickname := if cadence = "month" then "Monthly" else "Yearly"
          type := "recurring"
          active := true } with
    | (p, prov) =>
      (p.id, { s1 with
               provider := prov
               prices := s1.prices ++
                 [{ id := s1.priceSeq
                    dodo_price_id := p.id
                    dodo_product_id := productId
                    active := p.active
                    nickname := p.nickname
                    currency := p.currency
                    amount := p.unit_amount
                    type := "recurring"
                    interval := some cadence }]
               priceSeq := s1.priceSeq + 1 })

/-- PaymentsService.getPriceForTierCadence: resolve the owning product, filter
the cached rows, scan them with self-healing edits, and fall back to creating
a new provider price. -/
def PaymentsService.getPriceForTierCadence (tier : Tier) (cadence : String) (s : St) :
    Nat × St :=
  match PaymentsService.getProductForTier tier s with
  | (productId, s1) =>
    let currency := lowerStr tier.currency
    let amount := tier.getPrice cadence
    let rows := s1.prices.filter
      (fun r => decide (priceRowMatches productId currency cadence amount r))
    match PaymentsService.priceScan s1.provider currency amount cadence rows s1.prices with
    | (some pid, allRows) => (pid, { s1 with prices := allRows })
    | (none, allRows) =>
      PaymentsService.createPriceForTierCadence tier cadence { s1 with prices := allRows }

/-- PaymentsService.createCouponForOffer: build the coupon payload from the
offer DTO (percent offers carry `percent_off`, others `amount_off` plus
currency; repeating offers carry `duration_in_months`), create the provider
coupon, and persist its id on the offer. -/
def PaymentsService.createCouponForOffer (offer : OfferRow) (s : St) : St :=
  let couponData : CouponCreate :=
    { name := offer.name
      duration := offer.duration
      duration_in_months := if offer.duration = "repeating" then offer.duration_in_months else none
      percent_off := if offer.discount_type = "percent" then some offer.amount else none
      amount_off := if offer.discount_type = "percent" then none else some offer.amount
      currency := if offer.discount_type = "percent" then none else offer.currency }
  match DodoAPI.createCoupon s.provider couponData with
  | (coupon, prov) =>
    { s with
      provider := prov
      offers := s.offers.map
        (fun o => if o.id = offer.id then { o with dodo_coupon_id := some coupon.id } else o) }

/-- PaymentsService.getCouponForOffer: `null` for a missing offer or a
trial-kind offer; the stored coupon id when present; otherwise create the
coupon and re-enter. The source re-enters itself once the id is persisted, so
its recursion depth is at most one; the structural `fuel` argument (2 at every
call site) makes that recursion well-founded, and the fuel-0 base is
unreachable from the call sites. -/
def PaymentsService.getCouponForOffer : Nat → String → St → Option Nat × St
  | 0, _, s => (none, s)
  | fuel + 1, offerId, s =>
    match s.offers.find? (fun o => o.id == offerId) with
    | none => (none, s)
    | some row =>
      if row.discount_type = "trial" then (none, s)
      else
        match row.dodo_coupon_id with
        | some cid => (some cid, s)
        | none =>
          PaymentsService.getCouponForOffer fuel offerId
            (PaymentsService.createCouponForOffer row s)

/-- The offer argument of PaymentsService.getPaymentLink (a domain offer with
its tier reference). -/
structure OfferArg where
  id : String
  tierId : String
  type : String
  amount : Nat
deriving DecidableEq

/-- The parameter record of PaymentsService.getPaymentLink. -/
structure PaymentLinkParams where
  tier : Tier
  cadence : String
  offer : Option OfferArg
  member : Option Member
  metadata : List (String × String)
  successUrl : String
  cancelUrl : String
  email : Option String

/-- The tail of PaymentsService.getPaymentLink after coupon/trial resolution:
customer resolution, price resolution, assembly of the `data` object (with the
coupon-wins-over-trial deletion and the raw-email fallback), and session
creation. -/
def PaymentsService.getPaymentLinkRest (prm : PaymentLinkParams)
    (trialDaysOfOffer : Option Nat) (coupon : Option Nat) (s : St) :
    Except String String × St :=
  match (match prm.member with
         | some m =>
           match PaymentsService.getCustomerForMember m s with
           | (c, s1) => (some c, s1)
         | none => (none, s)) with
  | (customer, s1) =>
    match PaymentsService.getPriceForTierCadence prm.tier prm.cadence s1 with
    | (priceId, s2) =>
      let d0 : CheckoutData :=
        { metadata := prm.metadata
          successUrl := prm.successUrl
          cancelUrl := prm.cancelUrl
          trialDays := trialDaysOfOffer <|> prm.tier.trialDays
          coupon := coupon }
      let d1 := if d0.coupon.isSome then { d0 with trialDays := none } else d0
      let d2 :=
        if customer.isNone && jsTruthyStr prm.email then { d1 with customerEmail := prm.email }
        else d1
      match DodoAPI.createCheckoutSession s2.provider priceId customer d2 with
      | (sess, prov) => (.ok sess.url, { s2 with provider := prov })

/-- PaymentsService.getPaymentLink: offer/tier validation first, then trial or
coupon resolution, then the common tail. -/
def PaymentsService.getPaymentLink (prm : PaymentLinkParams) (s : St) :
    Except String String × St :=
  match prm.offer with
  | some o =>
    if prm.tier.id = o.tierId then
      if o.type = "trial" then PaymentsService.getPaymentLinkRest prm (some o.amount) none s
      else
        match PaymentsService.getCouponForOffer 2 o.id s with
        | (c, s1) => PaymentsService.getPaymentLinkRest prm none c s1
    else (.error "This Offer is not valid for the Tier", s)
  | none => PaymentsService.getPaymentLinkRest prm none none s

/-- The subscription object of a Dodo webhook event. -/
structure SubscriptionObj where
  id : Nat
  customer : Nat
  status : String
  price_id : Nat
deriving DecidableEq

/-- The payment object of a Dodo webhook event (`customer` and
`customer_email` may be absent). -/
structure PaymentObj where
  id : Nat
  customer : Option Nat
  customer_email : Option String
  amount : Nat
deriving DecidableEq

/-- The invoice object of a Dodo webhook event. -/
structure InvoiceObj where
  id : Nat
  payment_intent : Nat
  customer : Option Nat
  amount_paid : Nat
  amount_due : Nat
deriving DecidableEq

/-- The customer object of a Dodo webhook event. -/
structure CustomerObj where
  id : Nat
  email : String
  name : String
deriving DecidableEq

/-- A typed webhook event: a `type` tag and the nested object payload. -/
inductive Event where
  | paymentSucceeded (payment : PaymentObj)
  | paymentFailed (payment : PaymentObj)
  | subscriptionCreated (subscription : SubscriptionObj)
  | subscriptionUpdated (subscription : SubscriptionObj)
  | subscriptionCancelled (subscription : SubscriptionObj)
  | customerCreated (customer : CustomerObj)
  | customerUpdated (customer : CustomerObj)
  | invoicePaymentSucceeded (invoice : InvoiceObj)
  | invoicePaymentFailed (invoice : InvoiceObj)
  | unknownType (t : String)
deriving DecidableEq

/-- A partial update passed to `memberRepository.update`: only the keys present
on the source's `updates` object are `some`. -/
structure MemberUpdate where
  status : Option String := none
  subscribed : Option Bool := none
  tier_id : Option (Option String) := none
  email : Option String := none
  name : Option String := none

/-- Apply a partial update to a member record. -/
def applyMemberUpdate (m : Member) (u : MemberUpdate) : Member :=
  { m with
    status := u.status.getD m.status
    subscribed := u.subscribed.getD m.subscribed
    tier_id := u.tier_id.getD m.tier_id
    email := u.email.getD m.email
    name := u.name.getD m.name }

/-- `memberRepository.update(memberId, updates)`: fails when the repository is
failing (`St.repoError`), otherwise updates every member with that id. -/
def memberRepositoryUpdate (s : St) (mid : String) (u : MemberUpdate) : Except Unit St :=
  if s.repoError then .error ()
  else .ok { s with
             members := s.members.map
               (fun m => if m.id = mid then applyMemberUpdate m u else m) }

/-- DodoWebhookController.findMemberFromCustomerId: DodoCustomer row lookup by
provider customer id, then member repository lookup by member id. -/
def DodoWebhookController.findMemberFromCustomerId (cid : Nat) (s : St) : Option Member :=
  match s.customers.find? (fun r => r.customer_id == cid) with
  | some r => s.members.find? (fun m => m.id == r.member_id)
  | none => none

/-- DodoWebhookController.findMemberFromPayment: by customer id when present,
otherwise by the email on the payment (a falsy email is no lookup). -/
def DodoWebhookController.findMemberFromPayment (payment : PaymentObj) (s : St) :
    Option Member :=
  match payment.customer with
  | some cid => DodoWebhookController.findMemberFromCustomerId cid s
  | none =>
    if jsTruthyStr payment.customer_email then
      s.members.find? (fun m => some m.email == payment.customer_email)
    else none

/-- DodoWebhookController.findMemberFromSubscription. -/
def DodoWebhookController.findMemberFromSubscription (sub : SubscriptionObj) (s : St) :
    Option Member :=
  DodoWebhookController.findMemberFromCustomerId sub.customer s

/-- DodoWebhookController.findMemberFromCustomer. -/
def DodoWebhookController.findMemberFromCustomer (c : CustomerObj) (s : St) : Option Member :=
  DodoWebhookController.findMemberFromCustomerId c.id s

/-- DodoWebhookController.findTierFromSubscription: chain the subscription's
price id through the DodoPrice row to the DodoProduct row to the tier; every
failure (including the caught tiersService error) yields `none`. -/
def DodoWebhookController.findTierFromSubscription (sub : SubscriptionObj) (s : St) :
    Option Tier :=
  match s.prices.find? (fun r => r.dodo_price_id == sub.price_id) with
  | some priceRecord =>
    match s.products.find? (fun r => r.dodo_product_id == priceRecord.dodo_product_id) with
    | some productRecord =>
      match productRecord.product_id with
      | some tid => s.tiers.find? (fun t => t.id == tid)
      | none => none
    | none => none
  | none => none

/-- DodoWebhookController.grantTierAccess: set the member's tier when the
subscription's tier resolves; its own try/catch swallows an update failure. -/
def DodoWebhookController.grantTierAccess (m : Member) (sub : SubscriptionObj) (s : St) : St :=
  match DodoWebhookController.findTierFromSubscription sub s with
  | some tier =>
    match memberRepositoryUpdate s m.id { tier_id := some (some tier.id) } with
    | .ok s1 => s1
    | .error _ => s
  | none => s

/-- DodoWebhookController.revokeTierAccess: clear the member's tier; its own
try/catch swallows an update failure. -/
def DodoWebhookController.revokeTierAccess (m : Member) (s : St) : St :=
  match memberRepositoryUpdate s m.id { tier_id := some none } with
  | .ok s1 => s1
  | .error _ => s

/-- DodoWebhookController.updateMemberSubscription: for an active status set
status=paid and, when the tier resolves, the tier id; for any other status set
status=free and tier_id=null. The `subscribed` key is never on this `updates`
object. Failures are swallowed. -/
def DodoWebhookController.updateMemberSubscription (m : Member) (sub : SubscriptionObj)
    (s : St) : St :=
  let u : MemberUpdate :=
    if sub.status = "active" then
      { status := some "paid"
        tier_id := (DodoWebhookController.findTierFromSubscription sub s).map
          (fun t => some t.id) }
    else { status := some "free", tier_id := some none }
  match memberRepositoryUpdate s m.id u with
  | .ok s1 => s1
  | .error _ => s

/-- DodoWebhookController.handlePaymentSucceeded: set the resolved member's
status to paid; internal failures are caught and swallowed. -/
def DodoWebhookController.handlePaymentSucceeded (payment : PaymentObj) (s : St) : St :=
  match DodoWebhookController.findMemberFromPayment payment s with
  | some m =>
    match memberRepositoryUpdate s m.id { status := some "paid" } with
    | .ok s1 => s1
    | .error _ => s
  | none => s

/-- DodoWebhookController.handlePaymentFailed: logging only, no mutation. -/
def DodoWebhookController.handlePaymentFailed (_payment : PaymentObj) (s : St) : St := s

/-- DodoWebhookController.handleSubscriptionCreated: set status=paid and
subscribed=true for the resolved member, then grant tier access; internal
failures are caught and swallowed. -/
def DodoWebhookController.handleSubscriptionCreated (sub : SubscriptionObj) (s : St) : St :=
  match DodoWebhookController.findMemberFromSubscription sub s with
  | some m =>
    match memberRepositoryUpdate s m.id { status := some "paid", subscribed := some true } with
    | .ok s1 => DodoWebhookController.grantTierAccess m sub s1
    | .error _ => s
  | none => s

/-- DodoWebhookController.handleSubscriptionUpdated. -/
def DodoWebhookController.handleSubscriptionUpdated (sub : SubscriptionObj) (s : St) : St :=
  match DodoWebhookController.findMemberFromSubscription sub s with
  | some m => DodoWebhookController.updateMemberSubscription m sub s
  | none => s

/-- DodoWebhookController.handleSubscriptionCancelled: set status=free and
subscribed=false, then revoke tier access; internal failures are caught and
swallowed. -/
def DodoWebhookController.handleSubscriptionCancelled (sub : SubscriptionObj) (s : St) : St :=
  match DodoWebhookController.findMemberFromSubscription sub s with
  | some m =>
    match memberRepositoryUpdate s m.id { status := some "free", subscribed := some false } with
    | .ok s1 => DodoWebhookController.revokeTierAccess m s1
    | .error _ => s
  | none => s

/-- DodoWebhookController.handleCustomerCreated: a no-op. -/
def DodoWebhookController.handleCustomerCreated (_c : CustomerObj) (s : St) : St := s

/-- DodoWebhookController.handleCustomerUpdated: sync the member's email/name
from the provider customer when they differ. -/
def DodoWebhookController.handleCustomerUpdated (c : CustomerObj) (s : St) : St :=
  match DodoWebhookController.findMemberFromCustomer c s with
  | some m =>
    if m.email ≠ c.email ∨ m.name ≠ c.name then
      match memberRepositoryUpdate s m.id { email := some c.email, name := some c.name } with
      | .ok s1 => s1
      | .error _ => s
    else s
  | none => s

/-- DodoWebhookController.handleInvoicePaymentSucceeded: remap the invoice to a
payment-shaped object (no `customer_email` key) and reuse the payment handler. -/
def DodoWebhookController.handleInvoicePaymentSucceeded (invoice : InvoiceObj) (s : St) : St :=
  DodoWebhookController.handlePaymentSucceeded
    { id := invoice.payment_intent
      customer := invoice.customer
      customer_email := none
      amount := invoice.amount_paid } s

/-- DodoWebhookController.handleInvoicePaymentFailed: remap and reuse the
payment-failed handler. -/
def DodoWebhookController.handleInvoicePaymentFailed (invoice : InvoiceObj) (s : St) : St :=
  DodoWebhookController.handlePaymentFailed
    { id := invoice.payment_intent
      customer := invoice.customer
      customer_email := none
      amount := invoice.amount_due } s

/-- DodoWebhookController.routeWebhookEvent: dispatch by event type; unknown
types are a logged no-op. -/
def DodoWebhookController.routeWebhookEvent : Event → St → St
  | .paymentSucceeded p, s => DodoWebhookController.handlePaymentSucceeded p s
  | .paymentFailed p, s => DodoWebhookController.handlePaymentFailed p s
  | .subscriptionCreated sub, s => DodoWebhookController.handleSubscriptionCreated sub s
  | .subscriptionUpdated sub, s => DodoWebhookController.handleSubscriptionUpdated sub s
  | .subscriptionCancelled sub, s => DodoWebhookController.handleSubscriptionCancelled sub s
  | .customerCreated c, s => DodoWebhookController.handleCustomerCreated c s
  | .customerUpdated c, s => DodoWebhookController.handleCustomerUpdated c s
  | .invoicePaymentSucceeded inv, s => DodoWebhookController.handleInvoicePaymentSucceeded inv s
  | .invoicePaymentFailed inv, s => DodoWebhookController.handleInvoicePaymentFailed inv s
  | .unknownType _, s => s

/-- A raw webhook request body: either valid JSON encoding a typed event, or
junk that `JSON.parse` rejects. -/
inductive RawBody where
  | wellFormed (e : Event)
  | malformed (junk : String)

/-- DodoAPI.verifyWebhookSignature: compare the given signature against the
HMAC-SHA256 of the payload under the secret. The HMAC primitive is an external
collaborator and is passed in as a function. -/
def DodoAPI.verifyWebhookSignature (hmacSha256 : String → String → String)
    (payload signature secret : String) : Bool :=
  signature == hmacSha256 secret payload

/-- DodoAPI.parseWebhook: `JSON.parse`, throwing `Invalid webhook payload` on
junk. -/
def DodoAPI.parseWebhook : RawBody → Except String Event
  | .wellFormed e => .ok e
  | .malformed _ => .error "Invalid webhook payload"

/-- DodoWebhookController.handleWebhook: verify the signature over the
stringified payload, parse, route, and answer 200; any signature or parse
failure is caught and answered with 400 (the routed handlers catch their own
internal failures, so a parsed event always reaches the 200 response). -/
def DodoWebhookController.handleWebhook (hmacSha256 : String → String → String)
    (stringify : RawBody → String) (webhookSecret : String)
    (signature : String) (body : RawBody) (s : St) : Nat × St :=
  if DodoAPI.verifyWebhookSignature hmacSha256 (stringify body) signature webhookSecret then
    match DodoAPI.parseWebhook body with
    | .ok e => (200, DodoWebhookController.routeWebhookEvent e s)
    | .error _ => (400, s)
  else (400, s)

/-- Well-formedness of a state: provider artifact ids are below the fresh-id
counter, and DodoPrice primary keys are distinct and below their counter.
These invariants hold for every state built through the model's operations. -/
def St.WF (s : St) : Prop :=
  (∀ c ∈ s.provider.customers, c.id < s.provider.nextId) ∧
  (∀ p ∈ s.provider.products, p.id < s.provider.nextId) ∧
  (∀ p ∈ s.provider.prices, p.id < s.provider.nextId) ∧
  (s.prices.map DodoPriceRow.id).Nodup ∧
  (∀ r ∈ s.prices, r.id < s.priceSeq)

instance (s : St) : Decidable s.WF := by
  unfold St.WF; exact inferInstance

/-- The provider customer id a webhook event references, per the resolution
path each handler takes (payment/invoice events may carry none). -/
def eventCustomerId : Event → Option Nat
  | .paymentSucceeded p => p.customer
  | .paymentFailed p => p.customer
  | .subscriptionCreated sub => some sub.customer
  | .subscriptionUpdated sub => some sub.customer
  | .subscriptionCancelled sub => some sub.customer
  | .customerCreated c => some c.id
  | .customerUpdated c => some c.id
  | .invoicePaymentSucceeded i => i.customer
  | .invoicePaymentFailed i => i.customer
  | .unknownType _ => none

/- Helper lemmas. -/

theorem customerScan_none_of_all_absent (prov : Provider) :
    ∀ rows : List DodoCustomerRow,
      (∀ r ∈ rows, prov.customers.find? (fun c => c.id == r.customer_id) = none) →
      PaymentsService.customerScan prov rows = none := by
  intro rows
  induction rows with
  | nil => intro _; rfl
  | cons r rs ih =>
    intro h
    have hr := h r (List.mem_cons_self r rs)
    have hrs := ih fun x hx => h x (List.mem_cons_of_mem _ hx)
    simp [PaymentsService.customerScan, DodoAPI.getCustomer, DodoAPI.getCustomerRaw, hr, hrs]

theorem findMemberFromCustomerId_none (cid : Nat) (s : St)
    (h : s.customers.find? (fun r => r.customer_id == cid) = none) :
    DodoWebhookController.findMemberFromCustomerId cid s = none := by
  unfold DodoWebhookController.findMemberFromCustomerId
  rw [h]

/- Concrete sample data used by witnesses and counterexamples. -/

/-- An empty system state. -/
def emptySt : St :=
  { provider := { customers := [], products := [], prices := [], coupons := [],
                  sessions := [], nextId := 0 }
    customers := [], products := [], prices := [], priceSeq := 0
    offers := [], members := [], tiers := [], repoError := false }

/-- A sample paid tier. -/
def tierGold : Tier :=
  { id := "tier_gold", name := "Gold", currency := "USD", monthlyPrice := 500,
    yearlyPrice := 5000, trialDays := some 7, type := "paid" }

/-- A sample member. -/
def memberAda : Member :=
  { id := "member_ada", email := "ada@example.com", name := "Ada",
    status := "free", subscribed := false, tier_id := none }

/-- C7: if an offer is supplied whose tier reference differs from the requested
tier, getPaymentLink fails with the invalid-request error and the state is
completely unchanged: no customer, coupon or price resolution has run and no
provider session has been created. -/
theorem C7_offer_tier_mismatch_fails_fast (prm : PaymentLinkParams) (o : OfferArg) (s : St)
    (ho : prm.offer = some o) (hne : prm.tier.id ≠ o.tierId) :
    PaymentsService.getPaymentLink prm s =
      (.error "This Offer is not valid for the Tier", s) := by
  unfold PaymentsService.getPaymentLink
  rw [ho]
  simp [hne]

/-- Witness for C7 at a concrete mismatched offer. -/
theorem C7_witness :
    PaymentsService.getPaymentLink
      { tier := tierGold, cadence := "month"
        offer := some { id := "offer_1", tierId := "tier_silver", type := "percent", amount := 20 }
        member := none, metadata := [], successUrl := "s", cancelUrl := "c", email := none }
      emptySt =
      (.error "This Offer is not valid for the Tier", emptySt) :=
  C7_offer_tier_mismatch_fails_fast _ _ _ rfl (by decide)

/-- C9: getCouponForOffer returns none for a trial-kind offer without touching
any state, and returns the stored coupon id, again without touching any state,
for a (non-trial) offer that already has one persisted. -/
theorem C9_trial_none_and_stored_id
    (s : St) (offerId : String) (row : OfferRow)
    (hrow : s.offers.find? (fun o => o.id == offerId) = some row) :
    (row.discount_type = "trial" →
      PaymentsService.getCouponForOffer 2 offerId s = (none, s)) ∧
    (row.discount_type ≠ "trial" → ∀ cid, row.dodo_coupon_id = some cid →
      PaymentsService.getCouponForOffer 2 offerId s = (some cid, s)) := by
  constructor
  · intro htrial
    simp [PaymentsService.getCouponForOffer, hrow, htrial]
  · intro hne cid hcid
    simp [PaymentsService.getCouponForOffer, hrow, hne, hcid]

/-- Witness for C9 on a concrete state holding a trial offer and a percent
offer with a stored coupon id. -/
theorem C9_witness :
    PaymentsService.getCouponForOffer 2 "offer_trial"
        { emptySt with offers :=
          [{ id := "offer_trial", dodo_coupon_id := none, discount_type := "trial",
             name := "T", duration := "once", duration_in_months := none,
             amount := 14, currency := none },
           { id := "offer_pc", dodo_coupon_id := some 9, discount_type := "percent",
             name := "P", duration := "forever", duration_in_months := none,
             amount := 20, currency := none }] } =
      (none, { emptySt with offers :=
          [{ id := "offer_trial", dodo_coupon_id := none, discount_type := "trial",
             name := "T", duration := "once", duration_in_months := none,
             amount := 14, currency := none },
           { id := "offer_pc", dodo_coupon_id := some 9, discount_type := "percent",
             name := "P", duration := "forever", duration_in_months := none,
             amount := 20, currency := none }] }) ∧
    PaymentsService.getCouponForOffer 2 "offer_pc"
        { emptySt with offers :=
          [{ id := "offer_trial", dodo_coupon_id := none, discount_type := "trial",
             name := "T", duration := "once", duration_in_months := none,
             amount := 14, currency := none },
           { id := "offer_pc", dodo_coupon_id := some 9, discount_type := "percent",
             name := "P", duration := "forever", duration_in_months := none,
             amount := 20, currency := none }] } =
      (some 9, { emptySt with offers :=
          [{ id := "offer_trial", dodo_coupon_id := none, discount_type := "trial",
             name := "T", duration := "once", duration_in_months := none,
             amount := 14, currency := none },
           { id := "offer_pc", dodo_coupon_id := some 9, discount_type := "percent",
             name := "P", duration := "forever", duration_in_months := none,
             amount := 20, currency := none }] }) :=
  ⟨(C9_trial_none_and_stored_id _ _
      { id := "offer_trial", dodo_coupon_id := none, discount_type := "trial",
        name := "T", duration := "once", duration_in_months := none,
        amount := 14, currency := none } (by decide)).1 (by decide),
   (C9_trial_none_and_stored_id _ _
      { id := "offer_pc", dodo_coupon_id := some 9, discount_type := "percent",
        name := "P", duration := "forever", duration_in_months := none,
        amount := 20, currency := none } (by decide)).2 (by decide) 9 rfl⟩

/-- C10: for a customer id the provider does not know, the raw request fails
with status 404, DodoAPI.getCustomer turns that into `deleted = true` instead
of an error, the customer-resolution scan skips such a candidate and keeps
scanning, and when every cached candidate has vanished this way,
getCustomerForMember falls through to creating a fresh customer. -/
theorem C10_vanished_customer_is_dead_candidate :
    (∀ (prov : Provider) (cid : Nat),
      prov.customers.find? (fun c => c.id == cid) = none →
      DodoAPI.getCustomerRaw prov cid = .error 404 ∧
        (DodoAPI.getCustomer prov cid).deleted = true) ∧
    (∀ (prov : Provider) (r : DodoCustomerRow) (rs : List DodoCustomerRow),
      prov.customers.find? (fun c => c.id == r.customer_id) = none →
      PaymentsService.customerScan prov (r :: rs) = PaymentsService.customerScan prov rs) ∧
    (∀ (s : St) (m : Member),
      (∀ r ∈ PaymentsService.customerRowsFor s m.id,
        s.provider.customers.find? (fun c => c.id == r.customer_id) = none) →
      PaymentsService.getCustomerForMember m s = PaymentsService.createCustomerForMember m s) := by
  refine ⟨?_, ?_, ?_⟩
  · intro prov cid h
    constructor
    · unfold DodoAPI.getCustomerRaw; rw [h]
    · simp [DodoAPI.getCustomer, DodoAPI.getCustomerRaw, h]
  · intro prov r rs h
    simp [PaymentsService.customerScan, DodoAPI.getCustomer, DodoAPI.getCustomerRaw, h]
  · intro s m h
    unfold PaymentsService.getCustomerForMember
    rw [customerScan_none_of_all_absent _ _ h]

/-- Witness for C10: one member with one cached row pointing at a vanished
provider customer; resolution creates a fresh customer. -/
theorem C10_witness :
    DodoAPI.getCustomerRaw emptySt.provider 3 = .error 404 ∧
    (DodoAPI.getCustomer emptySt.provider 3).deleted = true ∧
    PaymentsService.getCustomerForMember memberAda
        { emptySt with customers :=
            [{ member_id := "member_ada", customer_id := 3, email := "x", name := "y" }] } =
      PaymentsService.createCustomerForMember memberAda
        { emptySt with customers :=
            [{ member_id := "member_ada", customer_id := 3, email := "x", name := "y" }] } :=
  ⟨(C10_vanished_customer_is_dead_candidate.1 _ 3 (by decide)).1,
   (C10_vanished_customer_is_dead_candidate.1 _ 3 (by decide)).2,
   C10_vanished_customer_is_dead_candidate.2.2 _ memberAda (by decide)⟩

/-- C5: a webhook whose signature does not verify, or whose payload does not
parse, is answered 400 with the state (in particular every member) unchanged;
and every signature-valid, parseable event is answered 200, whatever the
state — including states whose member repository is failing, so the dispatched
handler's internal outcome cannot change the acknowledgement. -/
theorem C5_webhook_status_codes
    (hmacSha256 : String → String → String) (stringify : RawBody → String)
    (secret signature : String) :
    (∀ (body : RawBody) (s : St),
      signature ≠ hmacSha256 secret (stringify body) →
      DodoWebhookController.handleWebhook hmacSha256 stringify secret signature body s =
        (400, s)) ∧
    (∀ (junk : String) (s : St),
      DodoWebhookController.handleWebhook hmacSha256 stringify secret signature
          (.malformed junk) s =
        (400, s)) ∧
    (∀ (e : Event) (s : St),
      signature = hmacSha256 secret (stringify (.wellFormed e)) →
      (DodoWebhookController.handleWebhook hmacSha256 stringify secret signature
          (.wellFormed e) s).1 = 200) := by
  refine ⟨?_, ?_, ?_⟩
  · intro body s h
    simp [DodoWebhookController.handleWebhook, DodoAPI.verifyWebhookSignature, h]
  · intro junk s
    by_cases h : signature = hmacSha256 secret (stringify (.malformed junk)) <;>
      simp [DodoWebhookController.handleWebhook, DodoAPI.verifyWebhookSignature,
        DodoAPI.parseWebhook, h]
  · intro e s h
    simp [DodoWebhookController.handleWebhook, DodoAPI.verifyWebhookSignature,
      DodoAPI.parseWebhook, h]

/-- Witness for C5: a tampered signature is rejected with the state unchanged,
junk bodies are rejected, and a correctly signed event is acknowledged with
200 even though the member repository is failing. -/
theorem C5_witness :
    DodoWebhookController.handleWebhook (fun sec p => sec ++ p) (fun _ => "body") "sec"
        "wrong" (.wellFormed (.unknownType "x")) emptySt = (400, emptySt) ∧
    DodoWebhookController.handleWebhook (fun sec p => sec ++ p) (fun _ => "body") "sec"
        "secbody" (.malformed "junk") emptySt = (400, emptySt) ∧
    (DodoWebhookController.handleWebhook (fun sec p => sec ++ p) (fun _ => "body") "sec"
        "secbody"
        (.wellFormed (.subscriptionCreated { id := 1, customer := 2, status := "active", price_id := 3 }))
        { emptySt with repoError := true }).1 = 200 :=
  ⟨(C5_webhook_status_codes (fun sec p => sec ++ p) (fun _ => "body") "sec" "wrong").1 _ _
     (by decide),
   (C5_webhook_status_codes (fun sec p => sec ++ p) (fun _ => "body") "sec" "secbody").2.1 _ _,
   (C5_webhook_status_codes (fun sec p => sec ++ p) (fun _ => "body") "sec" "secbody").2.2 _ _
     (by decide)⟩

/-- C8: a correctly signed event referencing a provider customer id with no
DodoCustomer row is acknowledged with 200 and leaves the whole state — in
particular every member — untouched, and no error escapes the handler. -/
theorem C8_unknown_customer_noop
    (hmacSha256 : String → String → String) (stringify : RawBody → String)
    (secret signature : String) (e : Event) (cid : Nat) (s : St)
    (hcid : eventCustomerId e = some cid)
    (hrow : s.customers.find? (fun r => r.customer_id == cid) = none)
    (hsig : signature = hmacSha256 secret (stringify (.wellFormed e))) :
    DodoWebhookController.handleWebhook hmacSha256 stringify secret signature
        (.wellFormed e) s = (200, s) := by
  have hroute : DodoWebhookController.routeWebhookEvent e s = s := by
    cases e with
    | paymentSucceeded p =>
      have hc : p.customer = some cid := hcid
      simp [DodoWebhookController.routeWebhookEvent,
        DodoWebhookController.handlePaymentSucceeded,
        DodoWebhookController.findMemberFromPayment, hc,
        findMemberFromCustomerId_none cid s hrow]
    | paymentFailed p =>
      simp [DodoWebhookController.routeWebhookEvent, DodoWebhookController.handlePaymentFailed]
    | subscriptionCreated sub =>
      have hc : sub.customer = cid := by
        have := hcid; simpa [eventCustomerId] using this
      simp [DodoWebhookController.routeWebhookEvent,
        DodoWebhookController.handleSubscriptionCreated,
        DodoWebhookController.findMemberFromSubscription, hc,
        findMemberFromCustomerId_none cid s hrow]
    | subscriptionUpdated sub =>
      have hc : sub.customer = cid := by
        have := hcid; simpa [eventCustomerId] using this
      simp [DodoWebhookController.routeWebhookEvent,
        DodoWebhookController.handleSubscriptionUpdated,
        DodoWebhookController.findMemberFromSubscription, hc,
        findMemberFromCustomerId_none cid s hrow]
    | subscriptionCancelled sub =>
      have hc : sub.customer = cid := by
        have := hcid; simpa [eventCustomerId] using this
      simp [DodoWebhookController.routeWebhookEvent,
        DodoWebhookController.handleSubscriptionCancelled,
        DodoWebhookController.findMemberFromSubscription, hc,
        findMemberFromCustomerId_none cid s hrow]
    | customerCreated c =>
      simp [DodoWebhookController.routeWebhookEvent, DodoWebhookController.handleCustomerCreated]
    | customerUpdated c =>
      have hc : c.id = cid := by
        have := hcid; simpa [eventCustomerId] using this
      simp [DodoWebhookController.routeWebhookEvent,
        DodoWebhookController.handleCustomerUpdated,
        DodoWebhookController.findMemberFromCustomer, hc,
        findMemberFromCustomerId_none cid s hrow]
    | invoicePaymentSucceeded inv =>
      have hc : inv.customer = some cid := hcid
      simp [DodoWebhookController.routeWebhookEvent,
        DodoWebhookController.handleInvoicePaymentSucceeded,
        DodoWebhookController.handlePaymentSucceeded,
        DodoWebhookController.findMemberFromPayment, hc,
        findMemberFromCustomerId_none cid s hrow]
    | invoicePaymentFailed inv =>
      simp [DodoWebhookController.routeWebhookEvent,
        DodoWebhookController.handleInvoicePaymentFailed,
        DodoWebhookController.handlePaymentFailed]
    | unknownType t => rfl
  simp [DodoWebhookController.handleWebhook, DodoAPI.verifyWebhookSignature,
    DodoAPI.parseWebhook, hsig, hroute]

/-- Witness for C8: a signed subscription.created event for customer id 42 with
no CustomerLink row on a state with one member. -/
theorem C8_witness :
    DodoWebhookController.handleWebhook (fun sec p => sec ++ p) (fun _ => "b") "k" "kb"
        (.wellFormed (.subscriptionCreated
          { id := 1, customer := 42, status := "active", price_id := 3 }))
        { emptySt with members := [memberAda] } =
      (200, { emptySt with members := [memberAda] }) :=
  C8_unknown_customer_noop _ _ _ _ _ 42 _ rfl (by decide) (by decide)

/-- C4: whenever getPaymentLink resolves a coupon for the supplied (non-trial,
tier-matching) offer, the checkout-session payload sent to the provider
carries that coupon and has no trial-days field — even if the tier has a
configured trial-day default. -/
theorem C4_coupon_wins_over_trial
    (prm : PaymentLinkParams) (o : OfferArg) (s s1 : St) (cid : Nat)
    (ho : prm.offer = some o) (htier : prm.tier.id = o.tierId) (hnt : o.type ≠ "trial")
    (hc : PaymentsService.getCouponForOffer 2 o.id s = (some cid, s1)) :
    ∃ sd : SessionData,
      ((PaymentsService.getPaymentLink prm s).2).provider.sessions.getLast? = some sd ∧
      sd.coupon_id = some cid ∧ sd.trial_period_days = none := by
  unfold PaymentsService.getPaymentLink
  rw [ho]
  dsimp only
  rw [if_pos htier, if_neg hnt, hc]
  unfold PaymentsService.getPaymentLinkRest
  obtain ⟨customer, s2, hcs⟩ :
      ∃ c s2, (match prm.member with
               | some m =>
                 match PaymentsService.getCustomerForMember m s1 with
                 | (c, s1') => (some c, s1')
               | none => (none, s1)) = (c, s2) :=
    ⟨_, _, rfl⟩
  rw [hcs]
  dsimp only
  obtain ⟨priceId, s3, hps⟩ :
      ∃ p s3, PaymentsService.getPriceForTierCadence prm.tier prm.cadence s2 = (p, s3) :=
    ⟨_, _, rfl⟩
  rw [hps]
  dsimp only
  simp only [DodoAPI.createCheckoutSession, Option.isSome_some, if_true]
  refine ⟨_, List.getLast?_concat _, ?_, ?_⟩ <;>
    by_cases hemail : customer.isNone && jsTruthyStr prm.email <;>
      simp [hemail, jsTruthyNat]

/-- The concrete state used by the C4 witness: one percent offer with a
stored coupon id. -/
def c4St : St :=
  { emptySt with offers :=
      [{ id := "offer_pc", dodo_coupon_id := some 9, discount_type := "percent",
         name := "P", duration := "forever", duration_in_months := none,
         amount := 20, currency := none }] }

/-- Witness for C4: a percent offer with a stored coupon id on a tier that has
a 7-day trial default; the session payload carries the coupon and no trial
field. -/
theorem C4_witness :
    ∃ sd : SessionData,
      ((PaymentsService.getPaymentLink
          { tier := tierGold, cadence := "month"
            offer := some { id := "offer_pc", tierId := "tier_gold", type := "percent", amount := 20 }
            member := none, metadata := [], successUrl := "s", cancelUrl := "c", email := none }
          c4St).2).provider.sessions.getLast? = some sd ∧
      sd.coupon_id = some 9 ∧ sd.trial_period_days = none :=
  C4_coupon_wins_over_trial _
    { id := "offer_pc", tierId := "tier_gold", type := "percent", amount := 20 }
    c4St c4St 9 rfl (by decide) (by decide) (by decide)

/-- The concrete state used by the C1 counterexample: the cached row (local
primary key 1) points at provider price 7, which is still active but has
drifted to unit_amount 999 while the tier expects 500. -/
def c1St : St :=
  { emptySt with
    provider :=
      { customers := []
        products := [{ id := 1, name := "Gold", active := true }]
        prices := [{ id := 7, currency := "usd", unit_amount := 999, active := true,
                     nickname := "Monthly", recurring := some ⟨"month"⟩ }]
        coupons := [], sessions := [], nextId := 10 }
    products := [{ product_id := some "tier_gold", dodo_product_id := 1 }]
    prices := [{ id := 1, dodo_price_id := 7, dodo_product_id := 1, active := true,
                 nickname := "Monthly", currency := "usd", amount := 500,
                 type := "recurring", interval := some "month" }]
    priceSeq := 2 }

/-- Counterexample to C1 as stated: provider price 7 disagrees with the tier
(it is active but its amount diverged to 999), yet after the full
getPriceForTierCadence run the local row's active flag is still true — it was
not updated to false. -/
theorem C1_counterexample :
    DodoAPI.getPrice c1St.provider 7 =
      .ok { id := 7, currency := "usd", unit_amount := 999, active := true,
            nickname := "Monthly", recurring := some ⟨"month"⟩ } ∧
    ¬ providerPriceMatches (lowerStr tierGold.currency) (tierGold.getPrice "month") "month"
        { id := 7, currency := "usd", unit_amount := 999, active := true,
          nickname := "Monthly", recurring := some ⟨"month"⟩ } ∧
    (((PaymentsService.getPriceForTierCadence tierGold "month" c1St).2.prices.find?
        (fun r => r.id == 1)).map DodoPriceRow.active) = some true := by
  refine ⟨rfl, by decide, by decide⟩

/-- C1 as amended: when the scan hits a candidate whose provider record
disagrees (inactive, or currency/amount/interval diverged), it continues to
the next candidate with that row's active flag updated to the provider
price's active value — false exactly when the provider price is inactive; a
diverged-but-active provider price leaves the flag true. -/
theorem C1_mismatch_heals_to_provider_active
    (prov : Provider) (currency : String) (amount : Nat) (cadence : String)
    (r : DodoPriceRow) (rs allRows : List DodoPriceRow) (p : PPrice)
    (hfetch : DodoAPI.getPrice prov r.dodo_price_id = .ok p)
    (hmismatch : ¬ providerPriceMatches currency amount cadence p) :
    PaymentsService.priceScan prov currency amount cadence (r :: rs) allRows =
      PaymentsService.priceScan prov currency amount cadence rs
        (editActive allRows r.id p.active) ∧
    ∀ q ∈ editActive allRows r.id p.active, q.id = r.id → q.active = p.active := by
  constructor
  · simp only [PaymentsService.priceScan]
    rw [hfetch]
    exact if_neg hmismatch
  · intro q hq hid
    unfold editActive at hq
    rw [List.mem_map] at hq
    obtain ⟨q0, _, hq0eq⟩ := hq
    by_cases h : q0.id = r.id
    · rw [if_pos h] at hq0eq
      subst hq0eq
      rfl
    · rw [if_neg h] at hq0eq
      subst hq0eq
      exact absurd hid h

/-- Witness for C1's amended theorem at the counterexample state: the scan
step keeps the diverged-but-active row active (the provider's flag). -/
theorem C1_witness :
    PaymentsService.priceScan c1St.provider "usd" 500 "month"
        (c1St.prices) (c1St.prices) =
      PaymentsService.priceScan c1St.provider "usd" 500 "month" []
        (editActive c1St.prices 1 true) ∧
    ∀ q ∈ editActive c1St.prices 1 true, q.id = 1 → q.active = true := by
  have h := C1_mismatch_heals_to_provider_active c1St.provider "usd" 500 "month"
    { id := 1, dodo_price_id := 7, dodo_product_id := 1, active := true,
      nickname := "Monthly", currency := "usd", amount := 500,
      type := "recurring", interval := some "month" }
    [] c1St.prices
    { id := 7, currency := "usd", unit_amount := 999, active := true,
      nickname := "Monthly", recurring := some ⟨"month"⟩ }
    rfl (by decide)
  exact h

/-- The concrete state used by the C3 counterexample: a paid, subscribed
member linked to provider customer 5. -/
def c3St : St :=
  { emptySt with
    customers := [{ member_id := "member_ada", customer_id := 5, email := "a", name := "A" }]
    members := [{ id := "member_ada", email := "ada@example.com", name := "Ada",
                  status := "paid", subscribed := true, tier_id := some "tier_gold" }] }

/-- Counterexample to C3 as stated: a subscription.updated event with a
non-active status sets status=free and tier=none but leaves the member's
subscribed flag at true — it is not set to false as the claim requires. -/
theorem C3_counterexample :
    (DodoWebhookController.routeWebhookEvent
        (.subscriptionUpdated { id := 1, customer := 5, status := "cancelled", price_id := 3 })
        c3St).members =
      [{ id := "member_ada", email := "ada@example.com", name := "Ada",
         status := "free", subscribed := true, tier_id := none }] ∧
    (((DodoWebhookController.routeWebhookEvent
        (.subscriptionUpdated { id := 1, customer := 5, status := "cancelled", price_id := 3 })
        c3St).members.find? (fun m => m.id == "member_ada")).map Member.subscribed) =
      some true := by
  refine ⟨by decide, by decide⟩

/-- C3 as amended: a subscription.cancelled event sets the resolved member's
status to free, the subscribed flag to false, and the tier to none; a
subscription.updated event with a non-active status sets status to free and
tier to none but leaves the subscribed flag unchanged. (Both assuming the
member repository is not failing.) -/
theorem C3_cancel_and_inactive_update
    (sub : SubscriptionObj) (s : St) (m : Member)
    (hrepo : s.repoError = false)
    (hm : DodoWebhookController.findMemberFromSubscription sub s = some m) :
    (DodoWebhookController.routeWebhookEvent (.subscriptionCancelled sub) s).members =
      s.members.map (fun x =>
        if x.id = m.id then { x with status := "free", subscribed := false, tier_id := none }
        else x) ∧
    (sub.status ≠ "active" →
      (DodoWebhookController.routeWebhookEvent (.subscriptionUpdated sub) s).members =
        s.members.map (fun x =>
          if x.id = m.id then { x with status := "free", tier_id := none } else x)) := by
  constructor
  · simp only [DodoWebhookController.routeWebhookEvent,
      DodoWebhookController.handleSubscriptionCancelled, hm,
      memberRepositoryUpdate, hrepo, Bool.false_eq_true, if_false,
      DodoWebhookController.revokeTierAccess]
    simp only [List.map_map]
    apply List.map_congr_left
    intro x _
    by_cases hx : x.id = m.id <;>
      simp [hx, applyMemberUpdate]
  · intro hstatus
    simp only [DodoWebhookController.routeWebhookEvent,
      DodoWebhookController.handleSubscriptionUpdated, hm,
      DodoWebhookController.updateMemberSubscription, hstatus,
      memberRepositoryUpdate, hrepo, Bool.false_eq_true, if_false, if_neg hstatus]
    apply List.map_congr_left
    intro x _
    by_cases hx : x.id = m.id <;>
      simp [hx, applyMemberUpdate]

/-- Witness for C3's amended theorem at the counterexample state. -/
theorem C3_witness :
    (DodoWebhookController.routeWebhookEvent
        (.subscriptionCancelled { id := 1, customer := 5, status := "cancelled", price_id := 3 })
        c3St).members =
      c3St.members.map (fun x =>
        if x.id = "member_ada" then { x with status := "free", subscribed := false, tier_id := none }
        else x) ∧
    (DodoWebhookController.routeWebhookEvent
        (.subscriptionUpdated { id := 1, customer := 5, status := "cancelled", price_id := 3 })
        c3St).members =
      c3St.members.map (fun x =>
        if x.id = "member_ada" then { x with status := "free", tier_id := none } else x) := by
  have h := C3_cancel_and_inactive_update
    { id := 1, customer := 5, status := "cancelled", price_id := 3 } c3St
    { id := "member_ada", email := "ada@example.com", name := "Ada",
      status := "paid", subscribed := true, tier_id := some "tier_gold" }
    rfl (by decide)
  exact ⟨h.1, h.2 (by decide)⟩

theorem applyMemberUpdate_id (x : Member) (u : MemberUpdate) :
    (applyMemberUpdate x u).id = x.id := rfl

/-- The per-member function `memberRepository.update(mid, u)` applies. -/
def updMemberF (mid : String) (u : MemberUpdate) : Member → Member :=
  fun x => if x.id = mid then applyMemberUpdate x u else x

/-- The member-list effect of a successful `memberRepository.update`. -/
def updMembers (l : List Member) (mid : String) (u : MemberUpdate) : List Member :=
  l.map (updMemberF mid u)

/-- The `updates` object of handleSubscriptionCreated's first repository call. -/
def updCreated : MemberUpdate := { status := some "paid", subscribed := some true }

/-- The `updates` object of grantTierAccess. -/
def updGrant (t : Tier) : MemberUpdate := { tier_id := some (some t.id) }

/-- The `updates` object of updateMemberSubscription for an active status with
a resolved tier. -/
def updActive (t : Tier) : MemberUpdate :=
  { status := some "paid", tier_id := some (some t.id) }

theorem updMemberF_id (mid : String) (u : MemberUpdate) (x : Member) :
    (updMemberF mid u x).id = x.id := by
  unfold updMemberF
  by_cases hx : x.id = mid <;> simp [hx, applyMemberUpdate_id]

theorem memberRepositoryUpdate_ok (s : St) (mid : String) (u : MemberUpdate)
    (h : s.repoError = false) :
    memberRepositoryUpdate s mid u = .ok { s with members := updMembers s.members mid u } := by
  simp [memberRepositoryUpdate, h, updMembers, updMemberF]

theorem findMemberFromCustomerId_map (cid : Nat) (s : St) (f : Member → Member)
    (hf : ∀ x, (f x).id = x.id) :
    DodoWebhookController.findMemberFromCustomerId cid { s with members := s.members.map f } =
      (DodoWebhookController.findMemberFromCustomerId cid s).map f := by
  unfold DodoWebhookController.findMemberFromCustomerId
  dsimp only
  cases s.customers.find? (fun r => r.customer_id == cid) with
  | none => rfl
  | some r =>
    dsimp only
    rw [List.find?_map]
    have hpred : ((fun m : Member => m.id == r.member_id) ∘ f) =
        (fun m : Member => m.id == r.member_id) := by
      funext x
      simp [Function.comp, hf x]
    rw [hpred]

theorem findMemberFromSubscription_updA (sub : SubscriptionObj) (s : St) (A : List Member)
    (mid : String) (u : MemberUpdate) :
    DodoWebhookController.findMemberFromSubscription sub { s with members := updMembers A mid u } =
      (DodoWebhookController.findMemberFromSubscription sub { s with members := A }).map
        (updMemberF mid u) :=
  findMemberFromCustomerId_map sub.customer { s with members := A } (updMemberF mid u)
    (updMemberF_id mid u)

theorem findMemberFromSubscription_members_self (sub : SubscriptionObj) (s : St) :
    DodoWebhookController.findMemberFromSubscription sub { s with members := s.members } =
      DodoWebhookController.findMemberFromSubscription sub s := rfl

theorem findTierFromSubscription_members (sub : SubscriptionObj) (s : St) (M : List Member) :
    DodoWebhookController.findTierFromSubscription sub { s with members := M } =
      DodoWebhookController.findTierFromSubscription sub s := rfl

theorem handleSubscriptionCreated_compute (sub : SubscriptionObj) (s : St) (m : Member) (t : Tier)
    (hrepo : s.repoError = false)
    (hm : DodoWebhookController.findMemberFromSubscription sub s = some m)
    (ht : DodoWebhookController.findTierFromSubscription sub s = some t) :
    DodoWebhookController.handleSubscriptionCreated sub s =
      { s with members := updMembers (updMembers s.members m.id updCreated) m.id (updGrant t) } := by
  unfold DodoWebhookController.handleSubscriptionCreated
  rw [hm]
  dsimp only
  rw [show ({ status := some "paid", subscribed := some true } : MemberUpdate) = updCreated from rfl]
  rw [memberRepositoryUpdate_ok s m.id updCreated hrepo]
  dsimp only
  unfold DodoWebhookController.grantTierAccess
  rw [findTierFromSubscription_members, ht]
  dsimp only
  rw [show ({ tier_id := some (some t.id) } : MemberUpdate) = updGrant t from rfl]
  rw [memberRepositoryUpdate_ok { s with members := updMembers s.members m.id updCreated }
    m.id (updGrant t) hrepo]

theorem handleSubscriptionUpdated_compute_active (sub : SubscriptionObj) (s : St)
    (m : Member) (t : Tier)
    (hst : sub.status = "active") (hrepo : s.repoError = false)
    (hm : DodoWebhookController.findMemberFromSubscription sub s = some m)
    (ht : DodoWebhookController.findTierFromSubscription sub s = some t) :
    DodoWebhookController.handleSubscriptionUpdated sub s =
      { s with members := updMembers s.members m.id (updActive t) } := by
  unfold DodoWebhookController.handleSubscriptionUpdated
  rw [hm]
  dsimp only
  unfold DodoWebhookController.updateMemberSubscription
  rw [if_pos hst, ht]
  simp only [Option.map_some']
  rw [show ({ status := some "paid", tier_id := some (some t.id) } : MemberUpdate) = updActive t from rfl]
  rw [memberRepositoryUpdate_ok s m.id (updActive t) hrepo]

/-- C2: for a member resolvable from the event's customer id and a fixed
resolved tier, delivering subscription.created then subscription.updated (the
latter with active status) leaves the members — status, subscribed flag and
tier reference included — in the same final state as the opposite order. -/
theorem C2_created_updated_commute
    (sub : SubscriptionObj) (s : St) (m : Member) (t : Tier)
    (hst : sub.status = "active")
    (hm : DodoWebhookController.findMemberFromSubscription sub s = some m)
    (ht : DodoWebhookController.findTierFromSubscription sub s = some t) :
    (DodoWebhookController.routeWebhookEvent (.subscriptionUpdated sub)
      (DodoWebhookController.routeWebhookEvent (.subscriptionCreated sub) s)).members =
    (DodoWebhookController.routeWebhookEvent (.subscriptionCreated sub)
      (DodoWebhookController.routeWebhookEvent (.subscriptionUpdated sub) s)).members := by
  by_cases hrepo : s.repoError = true
  · have hcre : DodoWebhookController.routeWebhookEvent (.subscriptionCreated sub) s = s := by
      simp [DodoWebhookController.routeWebhookEvent,
        DodoWebhookController.handleSubscriptionCreated, hm, memberRepositoryUpdate, hrepo]
    have hupd : DodoWebhookController.routeWebhookEvent (.subscriptionUpdated sub) s = s := by
      simp [DodoWebhookController.routeWebhookEvent,
        DodoWebhookController.handleSubscriptionUpdated, hm,
        DodoWebhookController.updateMemberSubscription, memberRepositoryUpdate, hrepo]
    rw [hcre, hupd, hcre]
  · have hrepo' : s.repoError = false := by simpa using hrepo
    -- side A: created then updated
    have hA1 := handleSubscriptionCreated_compute sub s m t hrepo' hm ht
    have hmA2 : DodoWebhookController.findMemberFromSubscription sub
        { s with members := updMembers (updMembers s.members m.id updCreated) m.id (updGrant t) } =
        some (updMemberF m.id (updGrant t) (updMemberF m.id updCreated m)) := by
      rw [findMemberFromSubscription_updA, findMemberFromSubscription_updA,
        findMemberFromSubscription_members_self, hm]
      rfl
    have hidA : (updMemberF m.id (updGrant t) (updMemberF m.id updCreated m)).id = m.id := by
      rw [updMemberF_id, updMemberF_id]
    have htA2 : DodoWebhookController.findTierFromSubscription sub
        { s with members := updMembers (updMembers s.members m.id updCreated) m.id (updGrant t) } =
        some t := by
      rw [findTierFromSubscription_members]
      exact ht
    have hA2 := handleSubscriptionUpdated_compute_active sub
      { s with members := updMembers (updMembers s.members m.id updCreated) m.id (updGrant t) }
      _ t hst hrepo' hmA2 htA2
    rw [hidA] at hA2
    -- side B: updated then created
    have hB1 := handleSubscriptionUpdated_compute_active sub s m t hst hrepo' hm ht
    have hmB1 : DodoWebhookController.findMemberFromSubscription sub
        { s with members := updMembers s.members m.id (updActive t) } =
        some (updMemberF m.id (updActive t) m) := by
      rw [findMemberFromSubscription_updA, findMemberFromSubscription_members_self, hm]
      rfl
    have hidB : (updMemberF m.id (updActive t) m).id = m.id := updMemberF_id _ _ m
    have htB1 : DodoWebhookController.findTierFromSubscription sub
        { s with members := updMembers s.members m.id (updActive t) } = some t := by
      rw [findTierFromSubscription_members]
      exact ht
    have hB2 := handleSubscriptionCreated_compute sub
      { s with members := updMembers s.members m.id (updActive t) }
      _ t hrepo' hmB1 htB1
    rw [hidB] at hB2
    -- assemble both sides and compare the member lists pointwise
    simp only [DodoWebhookController.routeWebhookEvent]
    rw [hA1, hA2, hB1, hB2]
    dsimp only
    simp only [updMembers, List.map_map]
    apply List.map_congr_left
    intro x _
    by_cases hx : x.id = m.id <;>
      simp [Function.comp, updMemberF, hx, applyMemberUpdate, updCreated, updGrant, updActive]

/-- The concrete state used by the C2 witness: a member linked to provider
customer 5, and a price chain (price 3 → product 1 → tier_gold). -/
def c2St : St :=
  { emptySt with
    customers := [{ member_id := "member_ada", customer_id := 5, email := "a", name := "A" }]
    members := [memberAda]
    prices := [{ id := 1, dodo_price_id := 3, dodo_product_id := 1, active := true,
                 nickname := "Monthly", currency := "usd", amount := 500,
                 type := "recurring", interval := some "month" }]
    products := [{ product_id := some "tier_gold", dodo_product_id := 1 }]
    tiers := [tierGold] }

/-- Witness for C2 at a concrete subscription event on `c2St`. -/
theorem C2_witness :
    (DodoWebhookController.routeWebhookEvent
      (.subscriptionUpdated { id := 9, customer := 5, status := "active", price_id := 3 })
      (DodoWebhookController.routeWebhookEvent
        (.subscriptionCreated { id := 9, customer := 5, status := "active", price_id := 3 })
        c2St)).members =
    (DodoWebhookController.routeWebhookEvent
      (.subscriptionCreated { id := 9, customer := 5, status := "active", price_id := 3 })
      (DodoWebhookController.routeWebhookEvent
        (.subscriptionUpdated { id := 9, customer := 5, status := "active", price_id := 3 })
        c2St)).members :=
  C2_created_updated_commute
    { id := 9, customer := 5, status := "active", price_id := 3 } c2St memberAda tierGold
    rfl (by decide) (by decide)

theorem toNat_ofNat_small (n : Nat) (h : n < 55296) : (Char.ofNat n).toNat = n := by
  have hv : n.isValidChar := Or.inl h
  simp [Char.ofNat, hv, Char.toNat, Char.ofNatAux, UInt32.ofNat', UInt32.toNat]

theorem lowerChar_idem (c : Char) : lowerChar (lowerChar c) = lowerChar c := by
  unfold lowerChar
  by_cases h : 65 ≤ c.toNat ∧ c.toNat ≤ 90
  · rw [if_pos h]
    have ht : (Char.ofNat (c.toNat + 32)).toNat = c.toNat + 32 :=
      toNat_ofNat_small _ (by omega)
    rw [if_neg]
    rw [ht]
    omega
  · rw [if_neg h, if_neg h]

theorem lowerStr_idem (s : String) : lowerStr (lowerStr s) = lowerStr s := by
  show String.mk ((s.data.map lowerChar).map lowerChar) = String.mk (s.data.map lowerChar)
  rw [List.map_map]
  congr 1
  apply List.map_congr_left
  intro c _
  simp [Function.comp, lowerChar_idem]

/- Idempotency lemmas for the resolve-or-create operations (claim C6). -/

theorem customerScan_append (prov : Provider) (l1 l2 : List DodoCustomerRow) :
    PaymentsService.customerScan prov (l1 ++ l2) =
      (PaymentsService.customerScan prov l1).or (PaymentsService.customerScan prov l2) := by
  induction l1 with
  | nil => rfl
  | cons r rs ih =>
    simp only [List.cons_append, PaymentsService.customerScan]
    by_cases h : (DodoAPI.getCustomer prov r.customer_id).deleted
    · simp [h, ih]
    · simp [h]

theorem customerScan_after_create (prov : Provider) (email name : String)
    (rows : List DodoCustomerRow)
    (hscan : PaymentsService.customerScan prov rows = none) :
    PaymentsService.customerScan (DodoAPI.createCustomer prov email name).2 rows = none ∨
    PaymentsService.customerScan (DodoAPI.createCustomer prov email name).2 rows =
      some (DodoAPI.createCustomer prov email name).1 := by
  induction rows with
  | nil => left; rfl
  | cons r rs ih =>
    have hdel : (DodoAPI.getCustomer prov r.customer_id).deleted = true := by
      by_contra hc
      simp only [PaymentsService.customerScan] at hscan
      rw [if_neg hc] at hscan
      exact Option.some_ne_none _ hscan
    have htail : PaymentsService.customerScan prov rs = none := by
      simp only [PaymentsService.customerScan, hdel, if_pos] at hscan
      simpa using hscan
    simp only [PaymentsService.customerScan]
    cases hfind : prov.customers.find? (fun c => c.id == r.customer_id) with
    | some c0 =>
      have hnew : (DodoAPI.createCustomer prov email name).2.customers.find?
          (fun c => c.id == r.customer_id) = some c0 := by
        simp [DodoAPI.createCustomer, List.find?_append, hfind]
      have hdel0 : c0.deleted = true := by
        simpa [DodoAPI.getCustomer, DodoAPI.getCustomerRaw, hfind] using hdel
      rw [show DodoAPI.getCustomer (DodoAPI.createCustomer prov email name).2 r.customer_id =
          { id := c0.id, email := c0.email, name := c0.name, deleted := c0.deleted } from by
        simp [DodoAPI.getCustomer, DodoAPI.getCustomerRaw, hnew]]
      simpa [hdel0] using ih htail
    | none =>
      by_cases hid : prov.nextId == r.customer_id
      · right
        have hnew : (DodoAPI.createCustomer prov email name).2.customers.find?
            (fun c => c.id == r.customer_id) =
            some { id := prov.nextId, email := email, name := name, deleted := false } := by
          simp [DodoAPI.createCustomer, List.find?_append, hfind, List.find?, hid]
        rw [show DodoAPI.getCustomer (DodoAPI.createCustomer prov email name).2 r.customer_id =
            { id := prov.nextId, email := email, name := name, deleted := false } from by
          simp [DodoAPI.getCustomer, DodoAPI.getCustomerRaw, hnew]]
        simp [DodoAPI.createCustomer]
      · have hnew : (DodoAPI.createCustomer prov email name).2.customers.find?
            (fun c => c.id == r.customer_id) = none := by
          simp only [DodoAPI.createCustomer]
          rw [List.find?_append, hfind]
          simp only [List.find?, Option.none_or]
          rw [Bool.not_eq_true] at hid
          rw [hid]
        rw [show DodoAPI.getCustomer (DodoAPI.createCustomer prov email name).2 r.customer_id =
            { id := 0, email := "", name := "", deleted := true } from by
          simp [DodoAPI.getCustomer, DodoAPI.getCustomerRaw, hnew]]
        simpa using ih htail

theorem getCustomerForMember_twice (s : St) (m : Member)
    (hfresh : ∀ c ∈ s.provider.customers, c.id < s.provider.nextId) :
    (PaymentsService.getCustomerForMember m
        ((PaymentsService.getCustomerForMember m s).2)).1.id =
      (PaymentsService.getCustomerForMember m s).1.id ∧
    (PaymentsService.getCustomerForMember m
        ((PaymentsService.getCustomerForMember m s).2)).2.provider.customers.length ≤
      s.provider.customers.length + 1 ∧
    (PaymentsService.getCustomerForMember m
        ((PaymentsService.getCustomerForMember m s).2)).2.provider.products =
      s.provider.products ∧
    (PaymentsService.getCustomerForMember m
        ((PaymentsService.getCustomerForMember m s).2)).2.provider.prices =
      s.provider.prices ∧
    (PaymentsService.getCustomerForMember m
        ((PaymentsService.getCustomerForMember m s).2)).2.provider.coupons =
      s.provider.coupons := by
  unfold PaymentsService.getCustomerForMember
  cases hscan : PaymentsService.customerScan s.provider (PaymentsService.customerRowsFor s m.id) with
  | some c =>
    simp only [hscan]
    refine ⟨by simp, by simp, by simp, by simp, by simp⟩
  | none =>
    simp only [hscan]
    -- first call creates; compute the created customer and the new state
    have hrows2 : PaymentsService.customerRowsFor
        (PaymentsService.createCustomerForMember m s).2 m.id =
        PaymentsService.customerRowsFor s m.id ++
          [{ member_id := m.id, customer_id := s.provider.nextId,
             email := m.email, name := m.name }] := by
      simp [PaymentsService.createCustomerForMember, DodoAPI.createCustomer,
        PaymentsService.customerRowsFor, List.filter_append]
    have hprov2 : (PaymentsService.createCustomerForMember m s).2.provider =
        (DodoAPI.createCustomer s.provider m.email m.name).2 := rfl
    have hlast : PaymentsService.customerScan
        (DodoAPI.createCustomer s.provider m.email m.name).2
        [{ member_id := m.id, customer_id := s.provider.nextId,
           email := m.email, name := m.name }] =
        some (DodoAPI.createCustomer s.provider m.email m.name).1 := by
      have hnone : s.provider.customers.find? (fun c => c.id == s.provider.nextId) = none := by
        rw [List.find?_eq_none]
        intro c hc
        have := hfresh c hc
        simp only [beq_iff_eq]
        omega
      simp [PaymentsService.customerScan, DodoAPI.getCustomer, DodoAPI.getCustomerRaw,
        DodoAPI.createCustomer, List.find?_append, hnone, List.find?]
    have hscan2 : PaymentsService.customerScan
        (PaymentsService.createCustomerForMember m s).2.provider
        (PaymentsService.customerRowsFor (PaymentsService.createCustomerForMember m s).2 m.id) =
        some (DodoAPI.createCustomer s.provider m.email m.name).1 := by
      rw [hrows2, hprov2, customerScan_append]
      rcases customerScan_after_create s.provider m.email m.name
          (PaymentsService.customerRowsFor s m.id) hscan with hnone | hsome
      · rw [hnone, hlast]
        rfl
      · rw [hsome]
        rfl
    rw [hscan2]
    refine ⟨rfl, ?_, rfl, rfl, rfl⟩
    simp [PaymentsService.createCustomerForMember, DodoAPI.createCustomer]

theorem productScan_congr (p1 p2 : Provider) (rows : List DodoProductRow)
    (h : p1.products = p2.products) :
    PaymentsService.productScan p1 rows = PaymentsService.productScan p2 rows := by
  induction rows with
  | nil => rfl
  | cons r rs ih =>
    simp only [PaymentsService.productScan, DodoAPI.getProduct, h, ih]

theorem productScan_after_create (prov prov' : Provider) (rows : List DodoProductRow)
    (pnew : PProduct) (newRow : DodoProductRow)
    (hprods : prov'.products = prov.products ++ [pnew])
    (hscan : PaymentsService.productScan prov rows = none)
    (hfresh : ∀ q ∈ prov.products, q.id < pnew.id)
    (hact : pnew.active = true)
    (hrowid : newRow.dodo_product_id = pnew.id) :
    PaymentsService.productScan prov' (rows ++ [newRow]) = some pnew.id := by
  induction rows with
  | nil =>
    have hnone : prov.products.find? (fun p => p.id == pnew.id) = none := by
      rw [List.find?_eq_none]
      intro q hq
      have := hfresh q hq
      simp only [beq_iff_eq]
      omega
    simp [PaymentsService.productScan, DodoAPI.getProduct, hprods, hrowid,
      List.find?_append, hnone, List.find?, hact]
  | cons r rs ih =>
    cases hget : prov.products.find? (fun p => p.id == r.dodo_product_id) with
    | some p =>
      have hinact : p.active = false := by
        by_contra hc
        rw [Bool.not_eq_false] at hc
        simp only [PaymentsService.productScan, DodoAPI.getProduct, hget, hc, if_pos] at hscan
        exact Option.some_ne_none _ hscan
      have htail : PaymentsService.productScan prov rs = none := by
        simpa [PaymentsService.productScan, DodoAPI.getProduct, hget, hinact] using hscan
      have hget' : prov'.products.find? (fun p => p.id == r.dodo_product_id) = some p := by
        rw [hprods, List.find?_append, hget]
        rfl
      simpa [PaymentsService.productScan, DodoAPI.getProduct, hget', hinact] using ih htail
    | none =>
      have htail : PaymentsService.productScan prov rs = none := by
        simpa [PaymentsService.productScan, DodoAPI.getProduct, hget] using hscan
      by_cases hid : pnew.id == r.dodo_product_id
      · have hget' : prov'.products.find? (fun p => p.id == r.dodo_product_id) = some pnew := by
          rw [hprods, List.find?_append, hget]
          simp only [Option.none_or, List.find?, hid]
        simp only [List.cons_append, PaymentsService.productScan, DodoAPI.getProduct, hget', hact,
          if_pos]
      · have hget' : prov'.products.find? (fun p => p.id == r.dodo_product_id) = none := by
          rw [hprods, List.find?_append, hget]
          simp only [Option.none_or, List.find?]
          rw [Bool.not_eq_true] at hid
          rw [hid]
        simpa [PaymentsService.productScan, DodoAPI.getProduct, hget'] using ih htail

theorem productRowsFor_eq (s s' : St) (tierId : String) (h : s'.products = s.products) :
    PaymentsService.productRowsFor s' tierId = PaymentsService.productRowsFor s tierId := by
  unfold PaymentsService.productRowsFor
  rw [h]

theorem getProductForTier_stable (tier : Tier) (s : St)
    (hfresh : ∀ q ∈ s.provider.products, q.id < s.provider.nextId)
    (pid : Nat) (s1 : St) (h : PaymentsService.getProductForTier tier s = (pid, s1)) :
    ∀ s' : St, s'.products = s1.products → s'.provider.products = s1.provider.products →
      PaymentsService.getProductForTier tier s' = (pid, s') := by
  intro s' hprods hpprods
  unfold PaymentsService.getProductForTier at h ⊢
  cases hscan : PaymentsService.productScan s.provider (PaymentsService.productRowsFor s tier.id) with
  | some pid0 =>
    rw [hscan] at h
    have hpid : pid0 = pid := congrArg Prod.fst h
    have hs1 : s = s1 := congrArg Prod.snd h
    subst hpid
    subst hs1
    rw [productRowsFor_eq s s' tier.id hprods,
      productScan_congr s'.provider s.provider _ hpprods, hscan]
  | none =>
    rw [hscan] at h
    unfold PaymentsService.createProductForTier at h
    simp only [DodoAPI.createProduct] at h
    have hpid : s.provider.nextId = pid := congrArg Prod.fst h
    have hs1 := congrArg Prod.snd h
    dsimp only at hs1
    have hrows' : PaymentsService.productRowsFor s' tier.id =
        PaymentsService.productRowsFor s tier.id ++
          [{ product_id := some tier.id, dodo_product_id := s.provider.nextId }] := by
      unfold PaymentsService.productRowsFor
      rw [hprods, ← hs1]
      simp [List.filter_append]
    rw [hrows']
    rw [productScan_after_create s.provider s'.provider (PaymentsService.productRowsFor s tier.id)
      { id := s.provider.nextId, name := tier.name, active := true }
      { product_id := some tier.id, dodo_product_id := s.provider.nextId }
      (by rw [hpprods, ← hs1]) hscan hfresh rfl rfl]
    dsimp only
    rw [hpid]

theorem getProductForTier_effects (tier : Tier) (s : St) (pid : Nat) (s1 : St)
    (h : PaymentsService.getProductForTier tier s = (pid, s1)) :
    s1.customers = s.customers ∧ s1.prices = s.prices ∧ s1.priceSeq = s.priceSeq ∧
    s1.offers = s.offers ∧
    s1.provider.customers = s.provider.customers ∧ s1.provider.prices = s.provider.prices ∧
    s1.provider.coupons = s.provider.coupons ∧
    s.provider.nextId ≤ s1.provider.nextId ∧
    s1.provider.products.length ≤ s.provider.products.length + 1 ∧
    ((∀ q ∈ s.provider.products, q.id < s.provider.nextId) →
      ∀ q ∈ s1.provider.products, q.id < s1.provider.nextId) := by
  unfold PaymentsService.getProductForTier at h
  cases hscan : PaymentsService.productScan s.provider (PaymentsService.productRowsFor s tier.id) with
  | some pid0 =>
    rw [hscan] at h
    have hs1 : s = s1 := congrArg Prod.snd h
    subst hs1
    refine ⟨rfl, rfl, rfl, rfl, rfl, rfl, rfl, le_refl _, by omega, fun hf => hf⟩
  | none =>
    rw [hscan] at h
    unfold PaymentsService.createProductForTier at h
    simp only [DodoAPI.createProduct] at h
    have hs1 := congrArg Prod.snd h
    dsimp only at hs1
    rw [← hs1]
    refine ⟨rfl, rfl, rfl, rfl, rfl, rfl, rfl, by simp, by simp, ?_⟩
    intro hf q hq
    simp only [List.mem_append, List.mem_singleton] at hq
    rcases hq with hq | hq
    · have := hf q hq
      simp only
      omega
    · subst hq
      simp

theorem getProductForTier_twice (tier : Tier) (s : St)
    (hfresh : ∀ q ∈ s.provider.products, q.id < s.provider.nextId) :
    (PaymentsService.getProductForTier tier
        ((PaymentsService.getProductForTier tier s).2)).1 =
      (PaymentsService.getProductForTier tier s).1 ∧
    (PaymentsService.getProductForTier tier
        ((PaymentsService.getProductForTier tier s).2)).2 =
      (PaymentsService.getProductForTier tier s).2 ∧
    (PaymentsService.getProductForTier tier s).2.provider.products.length ≤
      s.provider.products.length + 1 ∧
    (PaymentsService.getProductForTier tier s).2.provider.customers = s.provider.customers ∧
    (PaymentsService.getProductForTier tier s).2.provider.prices = s.provider.prices ∧
    (PaymentsService.getProductForTier tier s).2.provider.coupons = s.provider.coupons := by
  obtain ⟨pid, s1, h⟩ : ∃ pid s1, PaymentsService.getProductForTier tier s = (pid, s1) :=
    ⟨_, _, rfl⟩
  have hstable := getProductForTier_stable tier s hfresh pid s1 h s1 rfl rfl
  obtain ⟨_, _, _, _, hc, hp, hcp, _, hlen, _⟩ := getProductForTier_effects tier s pid s1 h
  rw [h]
  rw [hstable]
  exact ⟨rfl, rfl, hlen, hc, hp, hcp⟩

/-- Proof-side fusion of getPriceForTierCadence's filter plus scan: one pass
over the whole DodoPrice table that skips non-matching rows, returns the first
provider-verified candidate, and applies the self-healing edit in place. Under
distinct primary keys it coincides with the source's pre-filtered scan
(priceScan_eq_lookup below). -/
def tierPriceLookup (prov : Provider) (pid : Nat) (currency : String) (amount : Nat)
    (cadence : String) : List DodoPriceRow → Option Nat × List DodoPriceRow
  | [] => (none, [])
  | r :: rs =>
    if priceRowMatches pid currency cadence amount r then
      match DodoAPI.getPrice prov r.dodo_price_id with
      | .error _ =>
        let res := tierPriceLookup prov pid currency amount cadence rs
        (res.1, r :: res.2)
      | .ok p =>
        if providerPriceMatches currency amount cadence p then (some p.id, r :: rs)
        else
          let res := tierPriceLookup prov pid currency amount cadence rs
          (res.1, { r with active := p.active } :: res.2)
    else
      let res := tierPriceLookup prov pid currency amount cadence rs
      (res.1, r :: res.2)

theorem editActive_cons (r : DodoPriceRow) (rows : List DodoPriceRow) (rid : Nat) (b : Bool) :
    editActive (r :: rows) rid b =
      (if r.id = rid then { r with active := b } else r) :: editActive rows rid b := rfl

theorem editActive_of_not_mem (rows : List DodoPriceRow) (rid : Nat) (b : Bool)
    (h : ∀ q ∈ rows, q.id ≠ rid) : editActive rows rid b = rows := by
  induction rows with
  | nil => rfl
  | cons q qs ih =>
    rw [editActive_cons, if_neg (h q (List.mem_cons_self q qs)),
      ih fun x hx => h x (List.mem_cons_of_mem _ hx)]

theorem priceScan_cons_skip (prov : Provider) (currency : String) (amount : Nat)
    (cadence : String) (C : List DodoPriceRow) (r : DodoPriceRow) :
    ∀ allRows, (∀ c ∈ C, c.id ≠ r.id) →
    PaymentsService.priceScan prov currency amount cadence C (r :: allRows) =
      ((PaymentsService.priceScan prov currency amount cadence C allRows).1,
       r :: (PaymentsService.priceScan prov currency amount cadence C allRows).2) := by
  induction C with
  | nil => intro allRows _; rfl
  | cons c cs ih =>
    intro allRows h
    have hcr : c.id ≠ r.id := h c (List.mem_cons_self c cs)
    have htail : ∀ x ∈ cs, x.id ≠ r.id := fun x hx => h x (List.mem_cons_of_mem _ hx)
    simp only [PaymentsService.priceScan]
    cases hget : DodoAPI.getPrice prov c.dodo_price_id with
    | error e => exact ih allRows htail
    | ok p =>
      dsimp only
      by_cases hm : providerPriceMatches currency amount cadence p
      · simp [if_pos hm]
      · simp only [if_neg hm]
        rw [editActive_cons, if_neg (fun hh => hcr hh.symm)]
        exact ih (editActive allRows c.id p.active) htail

theorem priceScan_eq_lookup (prov : Provider) (pid : Nat) (currency : String) (amount : Nat)
    (cadence : String) :
    ∀ allRows : List DodoPriceRow, (allRows.map DodoPriceRow.id).Nodup →
    PaymentsService.priceScan prov currency amount cadence
        (allRows.filter (fun r => decide (priceRowMatches pid currency cadence amount r)))
        allRows =
      tierPriceLookup prov pid currency amount cadence allRows := by
  intro allRows
  induction allRows with
  | nil => intro _; rfl
  | cons r rest ih =>
    intro hnd
    rw [List.map_cons, List.nodup_cons] at hnd
    obtain ⟨hnotmem, hndrest⟩ := hnd
    have hCneq : ∀ c ∈ rest.filter
        (fun r' => decide (priceRowMatches pid currency cadence amount r')), c.id ≠ r.id := by
      intro c hc he
      exact hnotmem (he ▸ List.mem_map_of_mem DodoPriceRow.id (List.mem_of_mem_filter hc))
    have hreq : ∀ q ∈ rest, q.id ≠ r.id := by
      intro q hq he
      exact hnotmem (he ▸ List.mem_map_of_mem DodoPriceRow.id hq)
    by_cases hφ : priceRowMatches pid currency cadence amount r
    · rw [List.filter_cons_of_pos (by simpa using hφ)]
      simp only [PaymentsService.priceScan, tierPriceLookup, if_pos hφ]
      cases hget : DodoAPI.getPrice prov r.dodo_price_id with
      | error e =>
        rw [priceScan_cons_skip prov currency amount cadence _ r rest hCneq, ih hndrest]
      | ok p =>
        dsimp only
        by_cases hm : providerPriceMatches currency amount cadence p
        · simp [if_pos hm]
        · simp only [if_neg hm]
          rw [editActive_cons, if_pos rfl,
            editActive_of_not_mem rest r.id p.active hreq,
            priceScan_cons_skip prov currency amount cadence _
              { r with active := p.active } rest (by simpa using hCneq),
            ih hndrest]
    · rw [List.filter_cons_of_neg (by simpa using hφ)]
      simp only [tierPriceLookup, if_neg hφ]
      rw [priceScan_cons_skip prov currency amount cadence _ r rest hCneq, ih hndrest]

theorem tierPriceLookup_ids (prov : Provider) (pid : Nat) (currency : String) (amount : Nat)
    (cadence : String) :
    ∀ allRows : List DodoPriceRow,
      ((tierPriceLookup prov pid currency amount cadence allRows).2).map DodoPriceRow.id =
        allRows.map DodoPriceRow.id := by
  intro allRows
  induction allRows with
  | nil => rfl
  | cons r rest ih =>
    by_cases hφ : priceRowMatches pid currency cadence amount r
    · simp only [tierPriceLookup, if_pos hφ]
      cases hget : DodoAPI.getPrice prov r.dodo_price_id with
      | error e => simpa using ih
      | ok p =>
        dsimp only
        by_cases hm : providerPriceMatches currency amount cadence p
        · simp [if_pos hm]
        · simp only [if_neg hm]
          simpa using ih
    · simp only [tierPriceLookup, if_neg hφ]
      simpa using ih

theorem tierPriceLookup_idem (prov : Provider) (pid : Nat) (currency : String) (amount : Nat)
    (cadence : String) :
    ∀ (allRows : List DodoPriceRow) (res : Option Nat) (allRows' : List DodoPriceRow),
      tierPriceLookup prov pid currency amount cadence allRows = (res, allRows') →
      tierPriceLookup prov pid currency amount cadence allRows' = (res, allRows') := by
  intro allRows
  induction allRows with
  | nil =>
    intro res allRows' h
    obtain ⟨h1, h2⟩ := Prod.mk.injEq _ _ _ _ ▸ h
    rw [← h1, ← h2]
    rfl
  | cons r rest ih =>
    intro res allRows' h
    obtain ⟨res0, t0, hl⟩ :
        ∃ a b, tierPriceLookup prov pid currency amount cadence rest = (a, b) := ⟨_, _, rfl⟩
    by_cases hφ : priceRowMatches pid currency cadence amount r
    · simp only [tierPriceLookup, if_pos hφ] at h
      cases hget : DodoAPI.getPrice prov r.dodo_price_id with
      | error e =>
        rw [hget] at h
        dsimp only at h
        rw [hl] at h
        obtain ⟨hres, hall⟩ := Prod.mk.injEq _ _ _ _ ▸ h
        subst hres
        rw [← hall]
        simp only [tierPriceLookup, if_pos hφ, hget]
        rw [ih res0 t0 hl]
      | ok p =>
        rw [hget] at h
        dsimp only at h
        by_cases hm : providerPriceMatches currency amount cadence p
        · rw [if_pos hm] at h
          obtain ⟨hres, hall⟩ := Prod.mk.injEq _ _ _ _ ▸ h
          subst hres
          rw [← hall]
          simp only [tierPriceLookup, if_pos hφ, hget]
          rw [if_pos hm]
        · rw [if_neg hm] at h
          rw [hl] at h
          obtain ⟨hres, hall⟩ := Prod.mk.injEq _ _ _ _ ▸ h
          subst hres
          rw [← hall]
          have hidem := ih res0 t0 hl
          by_cases hact : p.active = true
          · have hract : r.active = true := hφ.2.2.2.2.1
            have hr : ({ r with active := p.active } : DodoPriceRow) = r := by
              rw [hact, ← hract]
            rw [hr]
            simp only [tierPriceLookup, if_pos hφ, hget]
            rw [if_neg hm, hidem, hr]
          · have hnφ : ¬ priceRowMatches pid currency cadence amount
                ({ r with active := p.active } : DodoPriceRow) := by
              intro hc
              exact hact hc.2.2.2.2.1
            simp only [tierPriceLookup, if_neg hnφ]
            rw [hidem]
    · simp only [tierPriceLookup, if_neg hφ] at h
      rw [hl] at h
      obtain ⟨hres, hall⟩ := Prod.mk.injEq _ _ _ _ ▸ h
      subst hres
      rw [← hall]
      simp only [tierPriceLookup, if_neg hφ]
      rw [ih res0 t0 hl]

theorem tierPriceLookup_after_create (prov prov' : Provider) (pid : Nat) (currency : String)
    (amount : Nat) (cadence : String) (pnew : PPrice) (newRow : DodoPriceRow)
    (hprices : prov'.prices = prov.prices ++ [pnew])
    (hfresh : ∀ q ∈ prov.prices, q.id < pnew.id)
    (hφ : priceRowMatches pid currency cadence amount newRow)
    (hrowid : newRow.dodo_price_id = pnew.id)
    (hcond : providerPriceMatches currency amount cadence pnew) :
    ∀ allRows : List DodoPriceRow,
      tierPriceLookup prov pid currency amount cadence allRows = (none, allRows) →
      (tierPriceLookup prov' pid currency amount cadence (allRows ++ [newRow])).1 =
        some pnew.id := by
  intro allRows
  induction allRows with
  | nil =>
    intro _
    have hnone : prov.prices.find? (fun p => p.id == pnew.id) = none := by
      rw [List.find?_eq_none]
      intro q hq
      have := hfresh q hq
      simp only [beq_iff_eq]
      omega
    have hget' : DodoAPI.getPrice prov' newRow.dodo_price_id = .ok pnew := by
      simp [DodoAPI.getPrice, hprices, hrowid, List.find?_append, hnone, List.find?]
    simp [tierPriceLookup, if_pos hφ, hget', if_pos hcond]
  | cons r rest ih =>
    intro h
    by_cases hφr : priceRowMatches pid currency cadence amount r
    · simp only [tierPriceLookup, if_pos hφr] at h
      cases hget : prov.prices.find? (fun p => p.id == r.dodo_price_id) with
      | none =>
        have hgetp : DodoAPI.getPrice prov r.dodo_price_id = .error () := by
          simp [DodoAPI.getPrice, hget]
        rw [hgetp] at h
        dsimp only at h
        obtain ⟨hres, hall⟩ := Prod.mk.injEq _ _ _ _ ▸ h
        obtain ⟨hhead, htail⟩ := List.cons.injEq _ _ _ _ ▸ hall.symm
        have hrest : tierPriceLookup prov pid currency amount cadence rest = (none, rest) := by
          rw [Prod.ext_iff]
          exact ⟨hres, htail.symm⟩
        by_cases hid : pnew.id == r.dodo_price_id
        · have hget'' : DodoAPI.getPrice prov' r.dodo_price_id = .ok pnew := by
            simp only [DodoAPI.getPrice, hprices]
            rw [List.find?_append, hget]
            simp only [Option.none_or, List.find?, hid]
          simp only [List.cons_append, tierPriceLookup, if_pos hφr, hget'', if_pos hcond]
        · have hget'' : DodoAPI.getPrice prov' r.dodo_price_id = .error () := by
            simp only [DodoAPI.getPrice, hprices]
            rw [List.find?_append, hget]
            simp only [Option.none_or, List.find?]
            rw [Bool.not_eq_true] at hid
            rw [hid]
          simp only [List.cons_append, tierPriceLookup, if_pos hφr, hget'']
          exact ih hrest
      | some p =>
        have hgetp : DodoAPI.getPrice prov r.dodo_price_id = .ok p := by
          simp [DodoAPI.getPrice, hget]
        rw [hgetp] at h
        dsimp only at h
        have hm : ¬ providerPriceMatches currency amount cadence p := by
          intro hc
          rw [if_pos hc] at h
          have := congrArg Prod.fst h
          simp at this
        rw [if_neg hm] at h
        obtain ⟨hres, hall⟩ := Prod.mk.injEq _ _ _ _ ▸ h
        obtain ⟨hhead, htail⟩ := List.cons.injEq _ _ _ _ ▸ hall.symm
        have hrest : tierPriceLookup prov pid currency amount cadence rest = (none, rest) := by
          rw [Prod.ext_iff]
          exact ⟨hres, htail.symm⟩
        have hget'' : DodoAPI.getPrice prov' r.dodo_price_id = .ok p := by
          simp only [DodoAPI.getPrice, hprices]
          rw [List.find?_append, hget]
          rfl
        simp only [List.cons_append, tierPriceLookup, if_pos hφr, hget'']
        rw [if_neg hm]
        exact ih hrest
    · simp only [tierPriceLookup, if_neg hφr] at h
      obtain ⟨hres, hall⟩ := Prod.mk.injEq _ _ _ _ ▸ h
      obtain ⟨hhead, htail⟩ := List.cons.injEq _ _ _ _ ▸ hall.symm
      have hrest : tierPriceLookup prov pid currency amount cadence rest = (none, rest) := by
        rw [Prod.ext_iff]
        exact ⟨hres, htail.symm⟩
      simp only [List.cons_append, tierPriceLookup, if_neg hφr]
      exact ih hrest

/-- The provider price created by createPriceForTierCadence. -/
def pnewOf (tier : Tier) (cadence : String) (prov : Provider) : PPrice :=
  { id := prov.nextId
    currency := lowerStr tier.currency
    unit_amount := tier.getPrice cadence
    active := true
    nickname := if cadence = "month" then "Monthly" else "Yearly"
    recurring := some ⟨cadence⟩ }

/-- The DodoPrice row persisted by createPriceForTierCadence. -/
def newRowOf (tier : Tier) (cadence : String) (s2 : St) (pid : Nat) : DodoPriceRow :=
  { id := s2.priceSeq
    dodo_price_id := s2.provider.nextId
    dodo_product_id := pid
    active := true
    nickname := if cadence = "month" then "Monthly" else "Yearly"
    currency := lowerStr tier.currency
    amount := tier.getPrice cadence
    type := "recurring"
    interval := some cadence }

theorem createPriceForTierCadence_compute (tier : Tier) (cadence : String) (s2 : St) (pid : Nat)
    (hG : PaymentsService.getProductForTier tier s2 = (pid, s2)) :
    PaymentsService.createPriceForTierCadence tier cadence s2 =
      (s2.provider.nextId,
       { s2 with
         provider := { s2.provider with
                       prices := s2.provider.prices ++ [pnewOf tier cadence s2.provider]
                       nextId := s2.provider.nextId + 1 }
         prices := s2.prices ++ [newRowOf tier cadence s2 pid]
         priceSeq := s2.priceSeq + 1 }) := by
  unfold PaymentsService.createPriceForTierCadence
  rw [hG]
  dsimp only
  simp [DodoAPI.createPrice, pnewOf, newRowOf]

theorem getPriceForTierCadence_lookup (tier : Tier) (cadence : String) (s : St)
    (pid : Nat) (s1 : St)
    (hG : PaymentsService.getProductForTier tier s = (pid, s1))
    (hnd : (s1.prices.map DodoPriceRow.id).Nodup) :
    PaymentsService.getPriceForTierCadence tier cadence s =
      (match tierPriceLookup s1.provider pid (lowerStr tier.currency) (tier.getPrice cadence)
          cadence s1.prices with
       | (some pid', allRows) => (pid', { s1 with prices := allRows })
       | (none, allRows) =>
          PaymentsService.createPriceForTierCadence tier cadence
            { s1 with prices := allRows }) := by
  unfold PaymentsService.getPriceForTierCadence
  rw [hG]
  dsimp only
  rw [priceScan_eq_lookup s1.provider pid (lowerStr tier.currency) (tier.getPrice cadence)
    cadence s1.prices hnd]

theorem price_create_then_lookup (tier : Tier) (cadence : String) (s1 : St)
    (all2 : List DodoPriceRow) (pid : Nat)
    (hpriceF1 : ∀ q ∈ s1.provider.prices, q.id < s1.provider.nextId)
    (hnd2 : (all2.map DodoPriceRow.id).Nodup)
    (hseqf : ∀ q ∈ all2, q.id < s1.priceSeq)
    (hGs : ∀ s' : St, s'.products = s1.products →
      s'.provider.products = s1.provider.products →
      PaymentsService.getProductForTier tier s' = (pid, s'))
    (hLidem : tierPriceLookup s1.provider pid (lowerStr tier.currency) (tier.getPrice cadence)
      cadence all2 = (none, all2)) :
    (PaymentsService.getPriceForTierCadence tier cadence
      { s1 with
        provider := { s1.provider with
                      prices := s1.provider.prices ++ [pnewOf tier cadence s1.provider]
                      nextId := s1.provider.nextId + 1 }
        prices := all2 ++ [newRowOf tier cadence { s1 with prices := all2 } pid]
        priceSeq := s1.priceSeq + 1 }).1 = s1.provider.nextId ∧
    (PaymentsService.getPriceForTierCadence tier cadence
      { s1 with
        provider := { s1.provider with
                      prices := s1.provider.prices ++ [pnewOf tier cadence s1.provider]
                      nextId := s1.provider.nextId + 1 }
        prices := all2 ++ [newRowOf tier cadence { s1 with prices := all2 } pid]
        priceSeq := s1.priceSeq + 1 }).2.provider =
      { s1.provider with
        prices := s1.provider.prices ++ [pnewOf tier cadence s1.provider]
        nextId := s1.provider.nextId + 1 } := by
  have hG3 := hGs
    { s1 with
      provider := { s1.provider with
                    prices := s1.provider.prices ++ [pnewOf tier cadence s1.provider]
                    nextId := s1.provider.nextId + 1 }
      prices := all2 ++ [newRowOf tier cadence { s1 with prices := all2 } pid]
      priceSeq := s1.priceSeq + 1 } rfl rfl
  have hnd3 : (((all2 ++ [newRowOf tier cadence { s1 with prices := all2 } pid]).map
      DodoPriceRow.id)).Nodup := by
    rw [List.map_append]
    refine List.Nodup.append hnd2 (by simp) ?_
    intro x hx hy
    obtain ⟨q, hq, hqid⟩ := List.mem_map.mp hx
    obtain ⟨q2, hq2, hq2id⟩ := List.mem_map.mp hy
    have hq2' : q2 = newRowOf tier cadence { s1 with prices := all2 } pid := by
      simpa using hq2
    subst hq2'
    have hlt := hseqf q hq
    have hnr : (newRowOf tier cadence { s1 with prices := all2 } pid).id = s1.priceSeq := rfl
    omega
  have hrw2 := getPriceForTierCadence_lookup tier cadence
    { s1 with
      provider := { s1.provider with
                    prices := s1.provider.prices ++ [pnewOf tier cadence s1.provider]
                    nextId := s1.provider.nextId + 1 }
      prices := all2 ++ [newRowOf tier cadence { s1 with prices := all2 } pid]
      priceSeq := s1.priceSeq + 1 } pid _ hG3 hnd3
  dsimp only at hrw2
  have h_after := tierPriceLookup_after_create s1.provider
    { s1.provider with
      prices := s1.provider.prices ++ [pnewOf tier cadence s1.provider]
      nextId := s1.provider.nextId + 1 }
    pid (lowerStr tier.currency) (tier.getPrice cadence) cadence
    (pnewOf tier cadence s1.provider)
    (newRowOf tier cadence { s1 with prices := all2 } pid)
    rfl (fun q hq => hpriceF1 q hq)
    (by simp [priceRowMatches, newRowOf])
    rfl
    (by simp [providerPriceMatches, pnewOf, lowerStr_idem])
    all2 hLidem
  obtain ⟨res2, all4, hL4⟩ :
      ∃ a b, tierPriceLookup
        { s1.provider with
          prices := s1.provider.prices ++ [pnewOf tier cadence s1.provider]
          nextId := s1.provider.nextId + 1 }
        pid (lowerStr tier.currency) (tier.getPrice cadence) cadence
        (all2 ++ [newRowOf tier cadence { s1 with prices := all2 } pid]) = (a, b) :=
    ⟨_, _, rfl⟩
  rw [hL4] at h_after hrw2
  have hres2 : res2 = some (pnewOf tier cadence s1.provider).id := by
    simpa using h_after
  rw [hres2] at hrw2
  dsimp only at hrw2
  rw [hrw2]
  exact ⟨rfl, rfl⟩

theorem getPriceForTierCadence_twice (tier : Tier) (cadence : String) (s : St) (hWF : s.WF) :
    (PaymentsService.getPriceForTierCadence tier cadence
        ((PaymentsService.getPriceForTierCadence tier cadence s).2)).1 =
      (PaymentsService.getPriceForTierCadence tier cadence s).1 ∧
    (PaymentsService.getPriceForTierCadence tier cadence
        ((PaymentsService.getPriceForTierCadence tier cadence s).2)).2.provider.products.length ≤
      s.provider.products.length + 1 ∧
    (PaymentsService.getPriceForTierCadence tier cadence
        ((PaymentsService.getPriceForTierCadence tier cadence s).2)).2.provider.prices.length ≤
      s.provider.prices.length + 1 ∧
    (PaymentsService.getPriceForTierCadence tier cadence
        ((PaymentsService.getPriceForTierCadence tier cadence s).2)).2.provider.customers =
      s.provider.customers ∧
    (PaymentsService.getPriceForTierCadence tier cadence
        ((PaymentsService.getPriceForTierCadence tier cadence s).2)).2.provider.coupons =
      s.provider.coupons := by
  obtain ⟨hcustF, hprodF, hpriceF, hnd, hseq⟩ := hWF
  obtain ⟨pid, s1, hG⟩ : ∃ pid s1, PaymentsService.getProductForTier tier s = (pid, s1) :=
    ⟨_, _, rfl⟩
  obtain ⟨hcust1, hprices1, hseq1, hoffers1, hpcust1, hpprices1, hpcoup1, hnext1, hplen1, _⟩ :=
    getProductForTier_effects tier s pid s1 hG
  have hnd1 : (s1.prices.map DodoPriceRow.id).Nodup := by rw [hprices1]; exact hnd
  have hrw1 := getPriceForTierCadence_lookup tier cadence s pid s1 hG hnd1
  obtain ⟨res, all2, hL⟩ :
      ∃ a b, tierPriceLookup s1.provider pid (lowerStr tier.currency) (tier.getPrice cadence)
        cadence s1.prices = (a, b) := ⟨_, _, rfl⟩
  have hids2 : all2.map DodoPriceRow.id = s1.prices.map DodoPriceRow.id := by
    have h := tierPriceLookup_ids s1.provider pid (lowerStr tier.currency)
      (tier.getPrice cadence) cadence s1.prices
    rw [hL] at h
    exact h
  have hLidem := tierPriceLookup_idem s1.provider pid (lowerStr tier.currency)
    (tier.getPrice cadence) cadence s1.prices res all2 hL
  have hnd2 : (all2.map DodoPriceRow.id).Nodup := by rw [hids2]; exact hnd1
  rw [hL] at hrw1
  cases res with
  | some f =>
    dsimp only at hrw1
    rw [hrw1]
    dsimp only
    have hG2 := getProductForTier_stable tier s hprodF pid s1 hG { s1 with prices := all2 }
      rfl rfl
    have hrw2 := getPriceForTierCadence_lookup tier cadence { s1 with prices := all2 }
      pid { s1 with prices := all2 } hG2 hnd2
    dsimp only at hrw2
    rw [hLidem] at hrw2
    dsimp only at hrw2
    rw [hrw2]
    refine ⟨rfl, ?_, ?_, ?_, ?_⟩
    · exact hplen1
    · rw [hpprices1]
      omega
    · exact hpcust1
    · exact hpcoup1
  | none =>
    dsimp only at hrw1
    have hG2 := getProductForTier_stable tier s hprodF pid s1 hG { s1 with prices := all2 }
      rfl rfl
    have hcreate := createPriceForTierCadence_compute tier cadence { s1 with prices := all2 }
      pid hG2
    rw [hcreate] at hrw1
    dsimp only at hrw1
    rw [hrw1]
    dsimp only
    have hpriceF1 : ∀ q ∈ s1.provider.prices, q.id < s1.provider.nextId := by
      intro q hq
      rw [hpprices1] at hq
      have := hpriceF q hq
      omega
    have hseqf : ∀ q ∈ all2, q.id < s1.priceSeq := by
      intro q hq
      have hmem : q.id ∈ all2.map DodoPriceRow.id := List.mem_map_of_mem DodoPriceRow.id hq
      rw [hids2, hprices1] at hmem
      obtain ⟨q2, hq2, hq2id⟩ := List.mem_map.mp hmem
      have := hseq q2 hq2
      rw [hseq1]
      omega
    have hGs := getProductForTier_stable tier s hprodF pid s1 hG
    have hmain := price_create_then_lookup tier cadence s1 all2 pid hpriceF1 hnd2 hseqf
      hGs hLidem
    rw [hmain.2]
    refine ⟨?_, ?_, ?_, ?_, ?_⟩
    · exact hmain.1
    · exact hplen1
    · rw [List.length_append, hpprices1]
      simp
    · exact hpcust1
    · exact hpcoup1

theorem find?_offers_edit (offers : List OfferRow) (offerId : String) (row : OfferRow) (v : Nat)
    (hfind : offers.find? (fun o => o.id == offerId) = some row) :
    (offers.map (fun o => if o.id = row.id then { o with dodo_coupon_id := some v } else o)).find?
      (fun o => o.id == offerId) = some { row with dodo_coupon_id := some v } := by
  rw [List.find?_map]
  have hpred : ((fun o : OfferRow => o.id == offerId) ∘
      (fun o : OfferRow => if o.id = row.id then { o with dodo_coupon_id := some v } else o)) =
      (fun o : OfferRow => o.id == offerId) := by
    funext o
    by_cases ho : o.id = row.id <;> simp [Function.comp, ho]
  rw [hpred, hfind]
  simp

theorem getCouponForOffer_twice (s : St) (offerId : String) :
    (PaymentsService.getCouponForOffer 2 offerId
        ((PaymentsService.getCouponForOffer 2 offerId s).2)).1 =
      (PaymentsService.getCouponForOffer 2 offerId s).1 ∧
    (PaymentsService.getCouponForOffer 2 offerId
        ((PaymentsService.getCouponForOffer 2 offerId s).2)).2.provider.coupons.length ≤
      s.provider.coupons.length + 1 ∧
    (PaymentsService.getCouponForOffer 2 offerId
        ((PaymentsService.getCouponForOffer 2 offerId s).2)).2.provider.customers =
      s.provider.customers ∧
    (PaymentsService.getCouponForOffer 2 offerId
        ((PaymentsService.getCouponForOffer 2 offerId s).2)).2.provider.products =
      s.provider.products ∧
    (PaymentsService.getCouponForOffer 2 offerId
        ((PaymentsService.getCouponForOffer 2 offerId s).2)).2.provider.prices =
      s.provider.prices := by
  cases hfind : s.offers.find? (fun o => o.id == offerId) with
  | none =>
    have h1 : PaymentsService.getCouponForOffer 2 offerId s = (none, s) := by
      simp [PaymentsService.getCouponForOffer, hfind]
    rw [h1]
    rw [h1]
    exact ⟨rfl, by simp, rfl, rfl, rfl⟩
  | some row =>
    by_cases htrial : row.discount_type = "trial"
    · have h1 : PaymentsService.getCouponForOffer 2 offerId s = (none, s) := by
        simp [PaymentsService.getCouponForOffer, hfind, htrial]
      rw [h1, h1]
      exact ⟨rfl, by simp, rfl, rfl, rfl⟩
    · cases hcid : row.dodo_coupon_id with
      | some cid =>
        have h1 : PaymentsService.getCouponForOffer 2 offerId s = (some cid, s) := by
          simp [PaymentsService.getCouponForOffer, hfind, htrial, hcid]
        rw [h1, h1]
        exact ⟨rfl, by simp, rfl, rfl, rfl⟩
      | none =>
        have hfind1 : (PaymentsService.createCouponForOffer row s).offers.find?
            (fun o => o.id == offerId) =
            some { row with dodo_coupon_id := some s.provider.nextId } := by
          simp only [PaymentsService.createCouponForOffer, DodoAPI.createCoupon]
          exact find?_offers_edit s.offers offerId row s.provider.nextId hfind
        have h1 : PaymentsService.getCouponForOffer 2 offerId s =
            (some s.provider.nextId, PaymentsService.createCouponForOffer row s) := by
          simp [PaymentsService.getCouponForOffer, hfind, htrial, hcid, hfind1]
        have h2 : PaymentsService.getCouponForOffer 2 offerId
            (PaymentsService.createCouponForOffer row s) =
            (some s.provider.nextId, PaymentsService.createCouponForOffer row s) := by
          simp [PaymentsService.getCouponForOffer, hfind1, htrial]
        rw [h1, h2]
        refine ⟨rfl, ?_, ?_, ?_, ?_⟩ <;>
          simp [PaymentsService.createCouponForOffer, DodoAPI.createCoupon]

/-- The total number of provider artifacts (customers, products, prices,
coupons) in a state. -/
def totalArtifacts (s : St) : Nat :=
  s.provider.customers.length + s.provider.products.length +
    s.provider.prices.length + s.provider.coupons.length

/-- Counterexample to C6 as stated: resolving the price of a fresh tier twice
creates two provider artifacts in total (the owning product and the price),
not at most one. -/
theorem C6_counterexample :
    totalArtifacts ((PaymentsService.getPriceForTierCadence tierGold "month"
        ((PaymentsService.getPriceForTierCadence tierGold "month" emptySt).2)).2) =
      totalArtifacts emptySt + 2 := by decide

/-- C6 as amended: on any well-formed state, each resolve-or-create operation
run twice in a row returns the same id both times and creates at most one new
provider artifact of the resolved kind — price resolution may additionally
create the owning product on the first call (up to one new product and one
new price), and each operation creates no artifacts of the other kinds. -/
theorem C6_resolve_twice_idempotent (s : St) (hWF : s.WF) :
    (∀ m : Member,
      (PaymentsService.getCustomerForMember m
          ((PaymentsService.getCustomerForMember m s).2)).1.id =
        (PaymentsService.getCustomerForMember m s).1.id ∧
      (PaymentsService.getCustomerForMember m
          ((PaymentsService.getCustomerForMember m s).2)).2.provider.customers.length ≤
        s.provider.customers.length + 1 ∧
      (PaymentsService.getCustomerForMember m
          ((PaymentsService.getCustomerForMember m s).2)).2.provider.products =
        s.provider.products ∧
      (PaymentsService.getCustomerForMember m
          ((PaymentsService.getCustomerForMember m s).2)).2.provider.prices =
        s.provider.prices ∧
      (PaymentsService.getCustomerForMember m
          ((PaymentsService.getCustomerForMember m s).2)).2.provider.coupons =
        s.provider.coupons) ∧
    (∀ tier : Tier,
      (PaymentsService.getProductForTier tier
          ((PaymentsService.getProductForTier tier s).2)).1 =
        (PaymentsService.getProductForTier tier s).1 ∧
      (PaymentsService.getProductForTier tier
          ((PaymentsService.getProductForTier tier s).2)).2.provider.products.length ≤
        s.provider.products.length + 1 ∧
      (PaymentsService.getProductForTier tier
          ((PaymentsService.getProductForTier tier s).2)).2.provider.customers =
        s.provider.customers ∧
      (PaymentsService.getProductForTier tier
          ((PaymentsService.getProductForTier tier s).2)).2.provider.prices =
        s.provider.prices ∧
      (PaymentsService.getProductForTier tier
          ((PaymentsService.getProductForTier tier s).2)).2.provider.coupons =
        s.provider.coupons) ∧
    (∀ (tier : Tier) (cadence : String),
      (PaymentsService.getPriceForTierCadence tier cadence
          ((PaymentsService.getPriceForTierCadence tier cadence s).2)).1 =
        (PaymentsService.getPriceForTierCadence tier cadence s).1 ∧
      (PaymentsService.getPriceForTierCadence tier cadence
          ((PaymentsService.getPriceForTierCadence tier cadence s).2)).2.provider.products.length ≤
        s.provider.products.length + 1 ∧
      (PaymentsService.getPriceForTierCadence tier cadence
          ((PaymentsService.getPriceForTierCadence tier cadence s).2)).2.provider.prices.length ≤
        s.provider.prices.length + 1 ∧
      (PaymentsService.getPriceForTierCadence tier cadence
          ((PaymentsService.getPriceForTierCadence tier cadence s).2)).2.provider.customers =
        s.provider.customers ∧
      (PaymentsService.getPriceForTierCadence tier cadence
          ((PaymentsService.getPriceForTierCadence tier cadence s).2)).2.provider.coupons =
        s.provider.coupons) ∧
    (∀ offerId : String,
      (PaymentsService.getCouponForOffer 2 offerId
          ((PaymentsService.getCouponForOffer 2 offerId s).2)).1 =
        (PaymentsService.getCouponForOffer 2 offerId s).1 ∧
      (PaymentsService.getCouponForOffer 2 offerId
          ((PaymentsService.getCouponForOffer 2 offerId s).2)).2.provider.coupons.length ≤
        s.provider.coupons.length + 1 ∧
      (PaymentsService.getCouponForOffer 2 offerId
          ((PaymentsService.getCouponForOffer 2 offerId s).2)).2.provider.customers =
        s.provider.customers ∧
      (PaymentsService.getCouponForOffer 2 offerId
          ((PaymentsService.getCouponForOffer 2 offerId s).2)).2.provider.products =
        s.provider.products ∧
      (PaymentsService.getCouponForOffer 2 offerId
          ((PaymentsService.getCouponForOffer 2 offerId s).2)).2.provider.prices =
        s.provider.prices) := by
  refine ⟨?_, ?_, ?_, ?_⟩
  · intro m
    exact getCustomerForMember_twice s m hWF.1
  · intro tier
    obtain ⟨hid, hst, hlen, hc, hp, hcp⟩ := getProductForTier_twice tier s hWF.2.1
    rw [hst]
    exact ⟨hid, hlen, hc, hp, hcp⟩
  · intro tier cadence
    exact getPriceForTierCadence_twice tier cadence s hWF
  · intro offerId
    exact getCouponForOffer_twice s offerId

/-- Witness for C6's amended theorem on the empty state: the price of the
fresh tier Gold resolves to the same id twice, and the customer resolution
for a fresh member returns the same id twice. -/
theorem C6_witness :
    (PaymentsService.getPriceForTierCadence tierGold "month"
        ((PaymentsService.getPriceForTierCadence tierGold "month" emptySt).2)).1 =
      (PaymentsService.getPriceForTierCadence tierGold "month" emptySt).1 ∧
    (PaymentsService.getCustomerForMember memberAda
        ((PaymentsService.getCustomerForMember memberAda emptySt).2)).1.id =
      (PaymentsService.getCustomerForMember memberAda emptySt).1.id :=
  ⟨((C6_resolve_twice_idempotent emptySt (by decide)).2.2.1 tierGold "month").1,
   ((C6_resolve_twice_idempotent emptySt (by decide)).1 memberAda).1⟩
